import Mathlib

/-!
# The socket layer of `cf/src/socket.c`

A shallow embedding of the address codec (`cf_sockaddr_convertto`,
`cf_sockaddr_convertfrom`), of the service-socket initialiser
(`cf_socket_init_svc`), of the client connector (`cf_socket_init_client`), of
the multicast initialiser (`cf_mcastsocket_init`) and of the interface
enumerator (`cf_ifaddr_get`), over an explicit model of the operating-system
calls they make.

Objects that the C code reads or writes through a `byte *` are modelled by their
object representation: a function from byte offsets to bytes.
-/

namespace CfSocket

/-! ## Bytes and raw memory -/

/-- One octet (`typedef uint8_t byte` of `cf_types.h`). -/
abbrev byte := Fin 256

/-- The object representation of an object that is `n` bytes long. -/
abbrev Mem (n : Nat) := Fin n → byte

/-- The call `memcpy(dst + off, src, len)`: the first `len` bytes of `src` are
written at offsets `off .. off + len - 1` of `dst`; all other bytes keep their
value. -/
def memcpy {n m : Nat} (dst : Mem n) (off : Nat) (src : Mem m) (len : Nat) : Mem n :=
  fun i =>
    if h : off ≤ i.val ∧ i.val - off < len ∧ i.val - off < m then
      src ⟨i.val - off, h.2.2⟩
    else dst i

/-- The call `memset(dst + off, c, len)`. -/
def memset {n : Nat} (dst : Mem n) (off : Nat) (c : byte) (len : Nat) : Mem n :=
  fun i => if off ≤ i.val ∧ i.val < off + len then c else dst i

/-! ## Socket addresses -/

/-- Address family of IPv4 (`AF_INET` of `sys/socket.h`). -/
def AF_INET : Nat := 2

/-- The `struct in_addr`: four address bytes, stored in network byte order. -/
structure in_addr where
  s_addr : Mem 4

/-- The `struct sockaddr_in`. The fields `sin_port` and `sin_addr` are kept as
the bytes that lie in memory, which the socket API defines to be in network byte
order. -/
structure sockaddr_in where
  sin_family : Nat
  sin_port : Mem 2
  sin_addr : in_addr
  sin_zero : Mem 8

/-- The compact address `cf_sockaddr` (a `uint64_t`), as the eight bytes of its
object representation: the codec only ever accesses it through a `byte *`. -/
abbrev cf_sockaddr := Mem 8

/-- Source function `cf_sockaddr_convertto` (socket.c lines 47-55). The second
argument is the content of `*dst` before the call, the result its content
after. -/
def cf_sockaddr_convertto (src : sockaddr_in) (dst : cf_sockaddr) : cf_sockaddr :=
  if src.sin_family ≠ AF_INET then dst
  else
    let b := dst
    let b := memcpy b 0 src.sin_addr.s_addr 4
    let b := memcpy b 4 src.sin_port 2
    memset b 6 0 2

/-- Source function `cf_sockaddr_convertfrom` (socket.c lines 57-65). The second
argument is the content of `*dst` before the call. -/
def cf_sockaddr_convertfrom (src : cf_sockaddr) (dst : sockaddr_in) : sockaddr_in :=
  let b := src
  let dst := { dst with sin_family := AF_INET }
  let dst := { dst with sin_addr := { s_addr := memcpy dst.sin_addr.s_addr 0 b 4 } }
  { dst with sin_port := memcpy dst.sin_port 0 (fun i : Fin 4 => b ⟨i.val + 4, by omega⟩) 2 }

/-! ## Platform constants

The values are those of the Linux headers the file includes (`sys/socket.h`,
`errno.h`, `fcntl.h`, `sys/epoll.h`); `socket.h` of the repository, which
declares `cf_socket_cfg`, is not among the sources. -/

/-- Socket type `SOCK_STREAM`. -/
def SOCK_STREAM : Int := 1
/-- Socket type `SOCK_DGRAM`. -/
def SOCK_DGRAM : Int := 2
/-- Error code `EINTR`. -/
def EINTR : ℕ+ := 4
/-- Error code `EBADF`. -/
def EBADF : ℕ+ := 9
/-- Error code `ENOTSOCK`. -/
def ENOTSOCK : ℕ+ := 88
/-- Error code `ENOPROTOOPT`. -/
def ENOPROTOOPT : ℕ+ := 92
/-- Error code `EADDRINUSE`. -/
def EADDRINUSE : ℕ+ := 98
/-- Error code `ETIMEDOUT`. -/
def ETIMEDOUT : ℕ+ := 110
/-- Error code `EINPROGRESS`. -/
def EINPROGRESS : ℕ+ := 115
/-- File status flag `O_NONBLOCK`. -/
def O_NONBLOCK : Nat := 2048
/-- Descriptor flag `FD_CLOEXEC`. -/
def FD_CLOEXEC : Nat := 1
/-- Event flag `EPOLLOUT`. -/
def EPOLLOUT : Nat := 4
/-- Event flag `EPOLLERR`. -/
def EPOLLERR : Nat := 8
/-- Event flag `EPOLLHUP`. -/
def EPOLLHUP : Nat := 16

/-! ## The operating system

The state of the process as far as the socket layer can observe it: `errno`,
the table of open descriptors, and the sequence of calls made so far. The
outcome of every call whose result the code inspects is supplied from outside
(a script), so that theorems quantify over all behaviours of the system. A
failing call returns -1 and stores a non-zero code in `errno`; a succeeding call
leaves `errno` alone. Calls whose result the code discards (`fcntl`, `close`,
`setsockopt` of the initialisers) are modelled by their effect on the open
descriptor they name; setting `TCP_NODELAY` takes effect on a stream socket
only and fails, unnoticed by the caller, on every other descriptor. -/

/-- Outcome of a system call, chosen by the environment. -/
inductive Outcome where
  | ok
  | fail (e : ℕ+)
  deriving DecidableEq

/-- Socket options the layer sets. -/
inductive SockOpt where
  | SO_REUSEADDR
  | TCP_NODELAY
  deriving DecidableEq

/-- Socket options of level `IPPROTO_IP` that the multicast initialiser sets. -/
inductive IpOpt where
  | IP_MULTICAST_IF
  | IP_MULTICAST_TTL
  | IP_ADD_MEMBERSHIP
  deriving DecidableEq

/-- What an open descriptor refers to. -/
inductive FdKind where
  | file
  | sock (proto : Int)
  | epoll
  deriving DecidableEq

/-- An entry of the descriptor table. `fl` holds the file status flags that
`F_SETFL` sets and `F_GETFL` reads. -/
structure Fd where
  num : Nat
  kind : FdKind
  fl : Nat
  cloexec : Bool
  reuseaddr : Bool
  nodelay : Bool
  deriving DecidableEq

/-- The calls the layer makes, as recorded in the trace. -/
inductive Call where
  | socket (proto : Int)
  | inet_pton (src : String)
  | setsockopt (fd : Int) (opt : SockOpt)
  | fcntl_setfd (fd : Int) (arg : Nat)
  | fcntl_getfl (fd : Int)
  | fcntl_setfl (fd : Int) (arg : Nat)
  | bind (fd : Int)
  | nanosleep (sec : Nat)
  | listen (fd : Int) (backlog : Nat)
  | connect (fd : Int)
  | cf_getms
  | epoll_create
  | epoll_ctl_add (epfd : Int) (fd : Int)
  | epoll_ctl_del (epfd : Int) (fd : Int)
  | epoll_wait (epfd : Int) (wait_ms : Nat)
  | close (fd : Int)
  | inet_addr (src : String)
  | setsockopt_ip (fd : Int) (opt : IpOpt)
  | getifaddrs
  | freeifaddrs
  deriving DecidableEq

/-- Observable process state. -/
structure OS where
  errno : Int
  fds : List Fd
  trace : List Call

/-- Record a call in the trace. -/
def OS.log (os : OS) (c : Call) : OS :=
  { os with trace := os.trace ++ [c] }

/-- The numbers of the open descriptors. -/
def OS.open_nums (os : OS) : List Nat :=
  os.fds.map Fd.num

/-- Search for the lowest number from `n` on that is not in `used`, looking at
no more than `fuel` candidates before settling on the next one. -/
def lowestFreeFrom (used : List Nat) : Nat → Nat → Nat
  | 0, n => n
  | fuel + 1, n => if n ∈ used then lowestFreeFrom used fuel (n + 1) else n

/-- The lowest descriptor number that is not open: what POSIX requires a call
that creates a descriptor to return. -/
def lowestFree (used : List Nat) : Nat :=
  lowestFreeFrom used (used.foldr max 0 + 1) 0

/-- Apply `f` to the table entry of descriptor `fd`. -/
def OS.update (os : OS) (fd : Int) (f : Fd → Fd) : OS :=
  { os with fds := os.fds.map (fun d => if (d.num : Int) = fd then f d else d) }

/-- A descriptor as it is right after its creation. -/
def Fd.fresh (n : Nat) (k : FdKind) : Fd :=
  { num := n, kind := k, fl := 0, cloexec := false, reuseaddr := false, nodelay := false }

/-- Create a descriptor of the given kind with the lowest free number. -/
def OS.alloc (os : OS) (k : FdKind) : Int × OS :=
  let n := lowestFree os.open_nums
  ((n : Int), { os with fds := Fd.fresh n k :: os.fds })

/-- A call that failed with code `e`: the caller sees -1 and `errno = e`. -/
def OS.failed (os : OS) (e : ℕ+) : Int × OS :=
  (-1, { os with errno := ((e : Nat) : Int) })

/-- The call `socket(AF_INET, proto, 0)`. -/
def sys_socket (os : OS) (proto : Int) (r : Outcome) : Int × OS :=
  let os := os.log (Call.socket proto)
  match r with
  | Outcome.fail e => os.failed e
  | Outcome.ok => os.alloc (FdKind.sock proto)

/-- The call `close(fd)`. -/
def sys_close (os : OS) (fd : Int) : OS :=
  let os := os.log (Call.close fd)
  { os with fds := os.fds.filter (fun d => decide ((d.num : Int) ≠ fd)) }

/-- The call `setsockopt(fd, level, opt, &one, sizeof one)` with the result
discarded. The option `TCP_NODELAY` of level `SOL_TCP` exists for stream
sockets only: on a socket of another type the call fails with `ENOPROTOOPT`, on
a descriptor that is no socket with `ENOTSOCK`, on a number that is not open
with `EBADF`, and in each of these cases the descriptor table stays as it
was. -/
def sys_setsockopt (os : OS) (fd : Int) (opt : SockOpt) : OS :=
  let os := os.log (Call.setsockopt fd opt)
  match opt with
  | SockOpt.SO_REUSEADDR => os.update fd (fun d => { d with reuseaddr := true })
  | SockOpt.TCP_NODELAY =>
    match os.fds.find? (fun d => decide ((d.num : Int) = fd)) with
    | some d =>
      match d.kind with
      | FdKind.sock proto =>
        if proto = SOCK_STREAM then os.update fd (fun d => { d with nodelay := true })
        else { os with errno := ((ENOPROTOOPT : Nat) : Int) }
      | _ => { os with errno := ((ENOTSOCK : Nat) : Int) }
    | none => { os with errno := ((EBADF : Nat) : Int) }

/-- The call `fcntl(fd, F_SETFD, arg)` with the result discarded. -/
def sys_fcntl_setfd (os : OS) (fd : Int) (arg : Nat) : OS :=
  (os.log (Call.fcntl_setfd fd arg)).update fd
    (fun d => { d with cloexec := decide (arg % 2 = FD_CLOEXEC) })

/-- The call `fcntl(fd, F_SETFL, arg)` with the result discarded. -/
def sys_fcntl_setfl (os : OS) (fd : Int) (arg : Nat) : OS :=
  (os.log (Call.fcntl_setfl fd arg)).update fd (fun d => { d with fl := arg })

/-- The call `fcntl(fd, F_GETFL, 0)`: the status flags of an open descriptor,
-1 for any other number. -/
def sys_fcntl_getfl (os : OS) (fd : Int) : Int × OS :=
  let os := os.log (Call.fcntl_getfl fd)
  match os.fds.find? (fun d => decide ((d.num : Int) = fd)) with
  | some d => ((d.fl : Int), os)
  | none => (-1, os)

/-- What C computes for `farg & (~O_NONBLOCK)` with `long farg`, on the 64-bit
two's complement representation. -/
def and_not_O_NONBLOCK (farg : Int) : Nat :=
  (farg % 2 ^ 64).toNat &&& (2 ^ 64 - 1 - O_NONBLOCK)

/-- A call that either succeeds with result 0 or fails (`bind`, `listen`,
`connect`, `epoll_ctl`). -/
def sys_call (os : OS) (c : Call) (r : Outcome) : Int × OS :=
  let os := os.log c
  match r with
  | Outcome.fail e => os.failed e
  | Outcome.ok => (0, os)

/-- The call `epoll_create(1)`. -/
def sys_epoll_create (os : OS) (r : Outcome) : Int × OS :=
  let os := os.log Call.epoll_create
  match r with
  | Outcome.fail e => os.failed e
  | Outcome.ok => os.alloc FdKind.epoll

/-- The call `cf_getms()`: the reading of the millisecond clock, a `uint64_t`. -/
def sys_cf_getms (os : OS) (reading : Nat) : Nat × OS :=
  (reading % 2 ^ 64, os.log Call.cf_getms)

/-! ## Dotted-decimal parsing

The function `inet_pton` belongs to the C library. Its contract for `AF_INET`
is: the text must be exactly four decimal numbers 0..255, separated by single
dots, each of at most three digits and without a leading zero; then the four
bytes are stored and 1 is returned. Otherwise 0 is returned, nothing is stored
and `errno` is not touched. -/

/-- Scanner state of the dotted-decimal parser: the octets completed so far,
the octet being read, whether it has a digit yet, and how many octets were
started. -/
structure Pton4 where
  done : List Nat
  cur : Nat
  saw_digit : Bool
  octets : Nat

/-- One character of the dotted-decimal scan; `none` rejects the text. -/
def pton4_step (st : Pton4) (ch : Char) : Option Pton4 :=
  if ch.isDigit then
    let new := st.cur * 10 + (ch.toNat - 48)
    if st.saw_digit && st.cur == 0 then none
    else if new > 255 then none
    else if !st.saw_digit then
      if st.octets + 1 > 4 then none
      else some { st with cur := new, octets := st.octets + 1, saw_digit := true }
    else some { st with cur := new }
  else if ch == '.' && st.saw_digit then
    if st.octets == 4 then none
    else some { done := st.done ++ [st.cur], cur := 0, saw_digit := false,
                octets := st.octets }
  else none

/-- Run the scan over the text. -/
def pton4_scan : Pton4 → List Char → Option Pton4
  | st, [] => some st
  | st, ch :: rest =>
    match pton4_step st ch with
    | none => none
    | some st1 => pton4_scan st1 rest

/-- The four address bytes of a well-formed dotted-decimal text. -/
def pton4 (src : String) : Option (Mem 4) :=
  match pton4_scan { done := [], cur := 0, saw_digit := false, octets := 0 } src.toList with
  | none => none
  | some st =>
    if st.octets < 4 then none
    else some (fun i => Fin.ofNat ((st.done ++ [st.cur]).getD i.val 0))

/-- The call `inet_pton(AF_INET, src, dst)`: result and content of `*dst`
afterwards. -/
def sys_inet_pton (os : OS) (src : String) (dst : Mem 4) : Int × Mem 4 × OS :=
  let os := os.log (Call.inet_pton src)
  match pton4 src with
  | some a => (1, a, os)
  | none => (0, dst, os)

/-- The 16-bit value `htons(port)` as it lies in memory: high byte first. -/
def htons (port : Int) : Mem 2 :=
  fun i =>
    if i.val = 0 then Fin.ofNat ((port % 65536).toNat / 256)
    else Fin.ofNat ((port % 65536).toNat % 256)

/-! ## Socket configuration -/

/-- Modelled from the spec: the `cf_socket_cfg` of `socket.h`, which is not among
the sources. The fields are those the code accesses; a null `addr` is `none`. -/
structure cf_socket_cfg where
  addr : Option String
  port : Int
  reuse_addr : Bool
  proto : Int
  sock : Int
  saddr : sockaddr_in

/-- Store the socket handle. -/
def cf_socket_cfg.set_sock (s : cf_socket_cfg) (fd : Int) : cf_socket_cfg :=
  { s with sock := fd }

/-- The statement `s->saddr.sin_family = AF_INET`. -/
def cf_socket_cfg.set_family (s : cf_socket_cfg) : cf_socket_cfg :=
  { s with saddr := { s.saddr with sin_family := AF_INET } }

/-- Store what `inet_pton` left in `saddr.sin_addr.s_addr`. -/
def cf_socket_cfg.set_inet_addr (s : cf_socket_cfg) (a : Mem 4) : cf_socket_cfg :=
  { s with saddr := { s.saddr with sin_addr := { s_addr := a } } }

/-- Store `htons(s->port)` in `saddr.sin_port`. -/
def cf_socket_cfg.set_inet_port (s : cf_socket_cfg) : cf_socket_cfg :=
  { s with saddr := { s.saddr with sin_port := htons s.port } }

/-- The statement `memset(&s->saddr, 0, sizeof(s->saddr))`. -/
def cf_socket_cfg.clear_saddr (s : cf_socket_cfg) : cf_socket_cfg :=
  { s with saddr := { sin_family := 0, sin_port := fun _ => 0,
                      sin_addr := { s_addr := fun _ => 0 }, sin_zero := fun _ => 0 } }

/-! ## Service socket initialiser -/

/-- Outcomes the environment chooses for one run of `cf_socket_init_svc`:
of `socket`, of each successive `bind`, and of `listen`. -/
structure SvcScript where
  socket : Outcome
  binds : List Outcome
  listen : Outcome

/-- The bind loop of `cf_socket_init_svc` (socket.c lines 243-252). The result is
`none` while the scripted bind outcomes are used up and the loop is still
retrying; `some (some e, os)` when the loop body returned `e`; `some (none, os)`
when `bind` succeeded and the loop was left. -/
def svc_bind_loop (s : cf_socket_cfg) : OS → List Outcome → Option (Option Int × OS)
  | _, [] => none
  | os, r :: rest =>
    let res := sys_call os (Call.bind s.sock) r
    if 0 > res.1 then
      if ((EADDRINUSE : Nat) : Int) ≠ res.2.errno then some (some res.2.errno, res.2)
      else svc_bind_loop s (res.2.log (Call.nanosleep 5)) rest
    else some (none, res.2)

/-- Source function `cf_socket_init_svc` (socket.c lines 195-261): return value,
configuration and process state after the call; `none` when the call has not
returned within the scripted bind outcomes. -/
def cf_socket_init_svc (s : cf_socket_cfg) (os : OS) (o : SvcScript) :
    Option (Int × cf_socket_cfg × OS) :=
  match s.addr with
  | none => some (-1, s, os)
  | some addr =>
    if s.port = 0 then some (-1, s, os)
    else
      let r1 := sys_socket os s.proto o.socket
      let s := s.set_sock r1.1
      if 0 > s.sock then some (r1.2.errno, s, r1.2)
      else
        let s := s.set_family
        let r2 := sys_inet_pton r1.2 addr s.saddr.sin_addr.s_addr
        let s := s.set_inet_addr r2.2.1
        if 1 ≠ r2.1 then some (r2.2.2.errno, s, r2.2.2)
        else
          let s := s.set_inet_port
          let os := if s.reuse_addr then sys_setsockopt r2.2.2 s.sock SockOpt.SO_REUSEADDR
                    else r2.2.2
          let os := sys_fcntl_setfd os s.sock FD_CLOEXEC
          match svc_bind_loop s os o.binds with
          | none => none
          | some (some e, os) => some (e, s, os)
          | some (none, os) =>
            if SOCK_STREAM = s.proto then
              let r3 := sys_call os (Call.listen s.sock 512) o.listen
              if 0 > r3.1 then some (r3.2.errno, s, r3.2)
              else some (0, s, r3.2)
            else some (0, s, os)

/-- The calls that a run of `cf_socket_init_svc` on descriptor `fd` makes up to
and including the bind attempt that follows `k` attempts which found the
address in use, each of them followed by the 5-second sleep. -/
def svc_calls_through_bind (s : cf_socket_cfg) (addr : String) (fd : Int) (k : Nat) :
    List Call :=
  [Call.socket s.proto, Call.inet_pton addr] ++
  (if s.reuse_addr then [Call.setsockopt fd SockOpt.SO_REUSEADDR] else []) ++
  [Call.fcntl_setfd fd FD_CLOEXEC] ++
  (List.replicate k [Call.bind fd, Call.nanosleep 5]).flatten ++ [Call.bind fd]

/-! ## Client connector -/

/-- What one `epoll_wait(epoll_fd, events, 1, 1)` delivers: a failure, or a
number of events together with the descriptor and the flags of `events[0]`. -/
inductive WaitOutcome where
  | fail (e : ℕ+)
  | events (nevents : Nat) (fd : Int) (events : Nat)
  deriving DecidableEq

/-- The field `events[0].data.fd` after the wait. -/
def WaitOutcome.data_fd : WaitOutcome → Int
  | WaitOutcome.fail _ => 0
  | WaitOutcome.events _ fd _ => fd

/-- The field `events[0].events` after the wait. -/
def WaitOutcome.flags : WaitOutcome → Nat
  | WaitOutcome.fail _ => 0
  | WaitOutcome.events _ _ ev => ev

/-- Outcomes the environment chooses for one run of `cf_socket_init_client`.
`start` is the clock reading when the wait loop begins; every entry of `waits`
is the outcome of one `epoll_wait` together with the clock reading that the
deadline check after it would get. -/
structure ClientScript where
  socket : Outcome
  connect : Outcome
  start : Nat
  epoll_create : Outcome
  epoll_ctl_add : Outcome
  waits : List (WaitOutcome × Nat)
  epoll_ctl_del : Outcome

/-- The call `epoll_wait(epfd, events, 1, 1)`. -/
def sys_epoll_wait (os : OS) (epfd : Int) (w : WaitOutcome) : Int × OS :=
  let os := os.log (Call.epoll_wait epfd 1)
  match w with
  | WaitOutcome.fail e => os.failed e
  | WaitOutcome.events n _ _ => ((n : Int), os)

/-- The code at label `Fail` of `cf_socket_init_client` (socket.c lines 377-387). -/
def client_fail (s : cf_socket_cfg) (os : OS) (epoll_fd : Int) :
    Int × cf_socket_cfg × OS :=
  let os := if epoll_fd > 0 then sys_close os epoll_fd else os
  let os := sys_close os s.sock
  (os.errno, s.set_sock (-1), os)

/-- The code at label `Success` of `cf_socket_init_client` (socket.c lines
391-400): the finalization. -/
def client_success (s : cf_socket_cfg) (os : OS) : Int × cf_socket_cfg × OS :=
  let os := sys_setsockopt os s.sock SockOpt.TCP_NODELAY
  let r := sys_fcntl_getfl os s.sock
  let os := sys_fcntl_setfl r.2 s.sock (and_not_O_NONBLOCK r.1)
  (0, s, os)

/-- Where one pass through the body of the wait loop ends. -/
inductive WaitStep where
  | retry (os : OS)
  | fail (os : OS)
  | success (os : OS)

/-- One pass through the body of the wait loop up to the jump it takes
(socket.c lines 325-367). -/
def client_wait_body (s : cf_socket_cfg) (epoll_fd : Int) (del : Outcome) (os : OS)
    (w : WaitOutcome) : WaitStep :=
  let r := sys_epoll_wait os epoll_fd w
  if 0 > r.1 then
    if r.2.errno = ((EINTR : Nat) : Int) then WaitStep.retry r.2 else WaitStep.fail r.2
  else
    if r.1 = 0 then WaitStep.retry r.2
    else if w.data_fd = s.sock then
      if w.flags &&& EPOLLOUT ≠ 0 then
        let r2 := sys_call r.2 (Call.epoll_ctl_del epoll_fd s.sock) del
        WaitStep.success (sys_close r2.2 epoll_fd)
      else WaitStep.fail r.2
    else WaitStep.retry r.2

/-- The test `start + timeout < cf_getms()` of label `Retry`, in `uint64_t`
arithmetic: `start` and the reading are `cf_clock` values, the `int timeout` is
converted to `uint64_t`. -/
def deadline_passed (start : Nat) (timeout : Int) (now : Nat) : Bool :=
  decide ((start + (timeout % 2 ^ 64).toNat) % 2 ^ 64 < now)

/-- The wait loop of `cf_socket_init_client` (socket.c lines 324-375), with the
jumps to `Fail` and `Success` followed to the return. The result is `none` while
the scripted waits are used up and the loop is still going round. -/
def client_wait_loop (s : cf_socket_cfg) (timeout : Int) (start : Nat) (epoll_fd : Int)
    (del : Outcome) : OS → List (WaitOutcome × Nat) → Option (Int × cf_socket_cfg × OS)
  | _, [] => none
  | os, (w, reading) :: rest =>
    match client_wait_body s epoll_fd del os w with
    | WaitStep.success os1 => some (client_success s os1)
    | WaitStep.fail os1 => some (client_fail s os1 epoll_fd)
    | WaitStep.retry os1 =>
      let t := sys_cf_getms os1 reading
      if deadline_passed start timeout t.1 then
        some (client_fail s { t.2 with errno := ((ETIMEDOUT : Nat) : Int) } epoll_fd)
      else client_wait_loop s timeout start epoll_fd del t.2 rest

/-- The branch `errno == EINPROGRESS` of `cf_socket_init_client` (socket.c lines
305-376): read the clock, create the event context, register the socket, and
run the wait loop. -/
def client_in_progress (s : cf_socket_cfg) (timeout : Int) (os : OS) (o : ClientScript) :
    Option (Int × cf_socket_cfg × OS) :=
  let t0 := sys_cf_getms os o.start
  let r4 := sys_epoll_create t0.2 o.epoll_create
  if 0 > r4.1 then some (client_fail s r4.2 r4.1)
  else
    let r5 := sys_call r4.2 (Call.epoll_ctl_add r4.1 s.sock) o.epoll_ctl_add
    if 0 > r5.1 then some (client_fail s r5.2 r4.1)
    else client_wait_loop s timeout t0.1 r4.1 o.epoll_ctl_del r5.2 o.waits

/-- Source function `cf_socket_init_client` (socket.c lines 267-401): return
value, configuration and process state after the call. The result is `none`
when the call does not return: the wait loop outlasts the scripted waits, or
`s->addr` is null and `inet_pton` dereferences it. -/
def cf_socket_init_client (s : cf_socket_cfg) (timeout : Int) (os : OS) (o : ClientScript) :
    Option (Int × cf_socket_cfg × OS) :=
  let r1 := sys_socket os s.proto o.socket
  let s := s.set_sock r1.1
  if 0 > s.sock then some (r1.2.errno, s, r1.2)
  else
    let os := sys_fcntl_setfd r1.2 s.sock FD_CLOEXEC
    let os := sys_fcntl_setfl os s.sock O_NONBLOCK
    let s := s.clear_saddr
    let s := s.set_family
    match s.addr with
    | none => none
    | some addr =>
      let r2 := sys_inet_pton os addr s.saddr.sin_addr.s_addr
      let s := s.set_inet_addr r2.2.1
      if r2.1 < 0 then
        let os := sys_close r2.2.2 s.sock
        some (os.errno, s, os)
      else if r2.1 = 0 then
        let os := sys_close r2.2.2 s.sock
        some (-1, s, os)
      else
        let s := s.set_inet_port
        let r3 := sys_call r2.2.2 (Call.connect s.sock) o.connect
        if r3.1 < 0 then
          if r3.2.errno = ((EINPROGRESS : Nat) : Int) then client_in_progress s timeout r3.2 o
          else some (client_fail s r3.2 (-1))
        else some (client_success s r3.2)

/-- A wait outcome that decides nothing for the socket `sock`: the wait was
interrupted by a signal, delivered no event, or delivered an event of another
descriptor. -/
def WaitOutcome.indecisive (sock : Int) : WaitOutcome → Bool
  | WaitOutcome.fail e => decide (e = EINTR)
  | WaitOutcome.events n fd _ => decide (n = 0) || decide (fd ≠ sock)

/-- The calls of the finalization of `cf_socket_init_client`: setting
`TCP_NODELAY`, reading the file status flags, and writing status flags in which
`O_NONBLOCK` is clear. -/
def Call.is_finalization : Call → Bool
  | Call.setsockopt _ SockOpt.TCP_NODELAY => true
  | Call.fcntl_getfl _ => true
  | Call.fcntl_setfl _ arg => decide (arg &&& O_NONBLOCK = 0)
  | _ => false

/-- The calls that a run of `cf_socket_init_client` on descriptor `fd` makes up to
and including `connect`. -/
def client_calls_through_connect (s : cf_socket_cfg) (addr : String) (fd : Int) : List Call :=
  [Call.socket s.proto, Call.fcntl_setfd fd FD_CLOEXEC, Call.fcntl_setfl fd O_NONBLOCK,
   Call.inet_pton addr, Call.connect fd]

/-- What a run of the client connector on socket `fd` that starts with the trace
`base` has done when it returns `r`: it made calls none of which belongs to the
finalization, and then either returns 0 with the handle `fd`, having made the
three finalization calls last (the flags written back have `O_NONBLOCK`
cleared) so that descriptor `fd` is open with `O_NONBLOCK` clear and, when the
socket type `proto` is `SOCK_STREAM`, with no-delay set, or returns a non-zero
value without any finalization call. -/
def client_post (fd : Int) (proto : Int) (base : List Call)
    (r : Int × cf_socket_cfg × OS) : Prop :=
  ∃ calls : List Call, (∀ c ∈ calls, c.is_finalization = false) ∧
    ((r.1 = 0 ∧ r.2.1.sock = fd ∧
        (∃ arg, r.2.2.trace = base ++ calls ++
            [Call.setsockopt fd SockOpt.TCP_NODELAY, Call.fcntl_getfl fd,
             Call.fcntl_setfl fd arg] ∧ arg &&& O_NONBLOCK = 0) ∧
        (∃ d ∈ r.2.2.fds, (d.num : Int) = fd ∧ (proto = SOCK_STREAM → d.nodelay = true) ∧
          d.fl &&& O_NONBLOCK = 0)) ∨
     (r.1 ≠ 0 ∧ r.2.2.trace = base ++ calls))

/-! ## Multicast socket initialiser -/

/-- The `struct ip_mreq`: group address and interface address. -/
structure ip_mreq where
  imr_multiaddr : in_addr
  imr_interface : in_addr

/-- Modelled from the spec: the `cf_mcastsocket_cfg` of `socket.h`, which is not
among the sources: a socket configuration, the membership request, the optional
outbound-interface address text (a null `tx_addr` is `none`) and the multicast
TTL, an `unsigned char` like the local it is copied to. -/
structure cf_mcastsocket_cfg where
  s : cf_socket_cfg
  ireq : ip_mreq
  tx_addr : Option String
  mcast_ttl : byte

/-- Outcomes the environment chooses for one run of `cf_mcastsocket_init`: of
`socket`, of each `setsockopt` by option, of each successive `bind`, and the
value that `inet_addr` returns for a text. -/
structure McastScript where
  socket : Outcome
  reuse_addr : Outcome
  inet_addr : String → Mem 4
  multicast_if : Outcome
  multicast_ttl : Outcome
  binds : List Outcome
  add_membership : Outcome

/-- The call `setsockopt(fd, SOL_SOCKET, opt, &yes, sizeof yes)` with the result
inspected: it takes effect or fails. -/
def sys_setsockopt_checked (os : OS) (fd : Int) (opt : SockOpt) (r : Outcome) : Int × OS :=
  match r with
  | Outcome.ok => (0, sys_setsockopt os fd opt)
  | Outcome.fail e => (os.log (Call.setsockopt fd opt)).failed e

/-- The bind loop of `cf_mcastsocket_init` (socket.c lines 509-511): every failed
`bind` is followed by another one. The result is `none` while the scripted
outcomes are used up and no `bind` has succeeded. -/
def mcast_bind_loop (s : cf_socket_cfg) : OS → List Outcome → Option OS
  | _, [] => none
  | os, r :: rest =>
    let res := sys_call os (Call.bind s.sock) r
    if 0 > res.1 then mcast_bind_loop s res.2 rest else some res.2

/-- The end of `cf_mcastsocket_init` (socket.c lines 513-521): build the
membership request and join the group, whatever the join returns. -/
def mcast_join (ms : cf_mcastsocket_cfg) (s : cf_socket_cfg) (os : OS) (o : McastScript) :
    Option (Int × cf_mcastsocket_cfg × OS) :=
  match s.addr with
  | none => none
  | some addr =>
    let r := sys_inet_pton os addr ms.ireq.imr_multiaddr.s_addr
    let ireq := { ms.ireq with imr_multiaddr := { s_addr := r.2.1 } }
    let ireq := { ireq with imr_interface := { s_addr := fun _ => 0 } }
    let p : ip_mreq × OS :=
      match ms.tx_addr with
      | some tx =>
        ({ ireq with imr_interface := { s_addr := o.inet_addr tx } },
         r.2.2.log (Call.inet_addr tx))
      | none => (ireq, r.2.2)
    let j := sys_call p.2 (Call.setsockopt_ip s.sock IpOpt.IP_ADD_MEMBERSHIP) o.add_membership
    some (0, { ms with s := s, ireq := p.1 }, j.2)

/-- The part of `cf_mcastsocket_init` from the TTL on (socket.c lines 500-521). -/
def mcast_from_ttl (ms : cf_mcastsocket_cfg) (s : cf_socket_cfg) (os : OS) (o : McastScript) :
    Option (Int × cf_mcastsocket_cfg × OS) :=
  let ttlvar := ms.mcast_ttl
  let os :=
    if ttlvar > 0 then
      (sys_call os (Call.setsockopt_ip s.sock IpOpt.IP_MULTICAST_TTL) o.multicast_ttl).2
    else os
  match mcast_bind_loop s os o.binds with
  | none => none
  | some os1 => mcast_join ms s os1 o

/-- Source function `cf_mcastsocket_init` (socket.c lines 463-522): return value,
configuration and process state after the call. The result is `none` when the
call does not return: no scripted `bind` succeeds, or `s->addr` is null and
`inet_pton` dereferences it. -/
def cf_mcastsocket_init (ms : cf_mcastsocket_cfg) (os : OS) (o : McastScript) :
    Option (Int × cf_mcastsocket_cfg × OS) :=
  let r1 := sys_socket os SOCK_DGRAM o.socket
  let s := ms.s.set_sock r1.1
  if 0 > s.sock then some (r1.2.errno, { ms with s := s }, r1.2)
  else
    let r2 := sys_setsockopt_checked r1.2 s.sock SockOpt.SO_REUSEADDR o.reuse_addr
    if r2.1 < 0 then some (r2.2.errno, { ms with s := s }, r2.2)
    else
      let os := sys_fcntl_setfd r2.2 s.sock 1
      let s := s.clear_saddr
      let s := s.set_family
      let s := s.set_inet_addr (fun _ => 0)
      let s := s.set_inet_port
      match ms.tx_addr with
      | some tx =>
        let os := os.log (Call.inet_addr tx)
        let r3 := sys_call os (Call.setsockopt_ip s.sock IpOpt.IP_MULTICAST_IF) o.multicast_if
        if r3.1 = -1 then some (r3.2.errno, { ms with s := s }, r3.2)
        else mcast_from_ttl ms s r3.2 o
      | none => mcast_from_ttl ms s os o

/-- The calls of a run of `cf_mcastsocket_init` on descriptor `fd` that returns
after `k` failed binds and one that succeeds: the egress interface is set when
`tx_addr` is given, the TTL when it is not zero. -/
def mcast_calls (ms : cf_mcastsocket_cfg) (addr : String) (fd : Int) (k : Nat) : List Call :=
  [Call.socket SOCK_DGRAM, Call.setsockopt fd SockOpt.SO_REUSEADDR, Call.fcntl_setfd fd 1] ++
  (match ms.tx_addr with
   | some tx => [Call.inet_addr tx, Call.setsockopt_ip fd IpOpt.IP_MULTICAST_IF]
   | none => []) ++
  (if ms.mcast_ttl ≠ 0 then [Call.setsockopt_ip fd IpOpt.IP_MULTICAST_TTL] else []) ++
  List.replicate (k + 1) (Call.bind fd) ++
  [Call.inet_pton addr] ++
  (match ms.tx_addr with
   | some tx => [Call.inet_addr tx]
   | none => []) ++
  [Call.setsockopt_ip fd IpOpt.IP_ADD_MEMBERSHIP]

/-! ## Interface enumeration -/

/-- The `struct sockaddr`: the family and 14 bytes of address data. -/
structure sockaddr where
  sa_family : Nat
  sa_data : Mem 14

/-- One node of the list that `getifaddrs` returns (`struct ifaddrs`), as far as
the code reads it. The link `ifa_next` is the tail of a `List`; a null
`ifa_addr` is `none`. -/
structure ifaddrs where
  ifa_flags : Nat
  ifa_addr : Option sockaddr

/-- Modelled from the spec: the `cf_ifaddr` of `socket.h`, which is not among the
sources: flags, address family and raw address of one interface. The fields are
those the code writes. -/
structure cf_ifaddr where
  flags : Nat
  family : Nat
  sa : sockaddr

/-- The memory of the caller that `cf_ifaddr_get` can write: `*ifaddr` (an
address), `*ifaddr_sz`, and the buffer, seen as the array of `cf_ifaddr` that
starts at its first byte (`arr i` is what lies at `((cf_ifaddr *) buf)[i]`). -/
structure IfaddrOut where
  ifaddr : Nat
  ifaddr_sz : Int
  arr : Nat → cf_ifaddr

/-- What `getifaddrs` does: it fails with an error code, or hands out a list. -/
inductive GetifaddrsOutcome where
  | fail (e : ℕ+)
  | ok (ifa : List ifaddrs)

/-- The call `getifaddrs(&ifa)`: result, the list stored in `ifa`, and the state. -/
def sys_getifaddrs (os : OS) (r : GetifaddrsOutcome) : Int × List ifaddrs × OS :=
  let os := os.log Call.getifaddrs
  match r with
  | GetifaddrsOutcome.fail e => (-1, [], { os with errno := ((e : Nat) : Int) })
  | GetifaddrsOutcome.ok ifa => (0, ifa, os)

/-- The test `(ifa->ifa_addr) && (ifa->ifa_addr->sa_family == AF_INET)`. -/
def ifaddrs.is_inet (ifa : ifaddrs) : Bool :=
  match ifa.ifa_addr with
  | some a => decide (a.sa_family = AF_INET)
  | none => false

/-- The first loop of `cf_ifaddr_get` (socket.c lines 554-559): `n_ifs` after the
walk over the list. -/
def ifaddr_count : List ifaddrs → Int → Int
  | [], n_ifs => n_ifs
  | ifa :: next, n_ifs =>
    if ifa.is_inet then ifaddr_count next (n_ifs + 1) else ifaddr_count next n_ifs

/-- The three stores of the second loop into `(*ifaddr)[i]` (socket.c lines
575-577). -/
def ifaddr_store (arr : Nat → cf_ifaddr) (i : Nat) (ifa : ifaddrs) : Nat → cf_ifaddr :=
  match ifa.ifa_addr with
  | none => arr
  | some a =>
    fun j =>
      if j = i then
        let r := arr i
        let r := { r with flags := ifa.ifa_flags }
        let r := { r with family := a.sa_family }
        { r with sa := a }
      else arr j

/-- The second loop of `cf_ifaddr_get` (socket.c lines 570-582): the array after
the walk that starts with index `i`. -/
def ifaddr_fill : List ifaddrs → Nat → (Nat → cf_ifaddr) → (Nat → cf_ifaddr)
  | [], _, arr => arr
  | ifa :: next, i, arr =>
    if ifa.is_inet then ifaddr_fill next (i + 1) (ifaddr_store arr i ifa)
    else ifaddr_fill next i arr

/-- Source function `cf_ifaddr_get` (socket.c lines 541-586). `sizeof_cf_ifaddr`
is `sizeof(cf_ifaddr)`, whose declaration is not among the sources; `buf` is the
address of the buffer and `bufsz` its size in bytes. The product
`sizeof(cf_ifaddr) * n_ifs` is computed in `size_t`; the `int` counter `n_ifs`
is taken not to overflow, which a list of fewer than 2^31 entries ensures. -/
def cf_ifaddr_get (sizeof_cf_ifaddr : Nat) (buf : Nat) (bufsz : Nat) (out : IfaddrOut)
    (os : OS) (r : GetifaddrsOutcome) : Int × IfaddrOut × OS :=
  let g := sys_getifaddrs os r
  if g.1 ≠ 0 then (-1, out, g.2.2)
  else
    let ifa_orig := g.2.1
    let n_ifs := ifaddr_count ifa_orig 0
    if bufsz < (sizeof_cf_ifaddr * (n_ifs % 2 ^ 64).toNat) % 2 ^ 64 then
      (-2, out, g.2.2.log Call.freeifaddrs)
    else
      let out := { out with ifaddr_sz := n_ifs }
      let out := { out with ifaddr := buf }
      let out := { out with arr := ifaddr_fill ifa_orig 0 out.arr }
      (0, out, g.2.2.log Call.freeifaddrs)

/-- The record that `cf_ifaddr_get` owes for one entry of the interface list:
none for an entry without address or with an address of another family. -/
def ifaddrs.record (ifa : ifaddrs) : Option cf_ifaddr :=
  match ifa.ifa_addr with
  | some a =>
    if a.sa_family = AF_INET then
      some { flags := ifa.ifa_flags, family := a.sa_family, sa := a }
    else none
  | none => none

/-- The records of the IPv4-bearing entries of an interface list, in list
order: the order-preserving filter of the list. -/
def inet_records (l : List ifaddrs) : List cf_ifaddr :=
  l.filterMap ifaddrs.record

/-! ## Concrete inputs used by the examples -/

/-- An `AF_INET` socket address: 10.0.0.1, port 3000. -/
def example_sockaddr : sockaddr_in :=
  { sin_family := AF_INET, sin_port := htons 3000,
    sin_addr := { s_addr := fun i => if i.val = 0 then 10 else if i.val = 3 then 1 else 0 },
    sin_zero := fun _ => 0 }

/-- A process with descriptors 0, 1 and 2 open and `errno = 0`. -/
def example_os : OS :=
  { errno := 0
    fds := [Fd.fresh 0 FdKind.file, Fd.fresh 1 FdKind.file, Fd.fresh 2 FdKind.file]
    trace := [] }

/-- An all-zero `struct sockaddr_in`. -/
def zero_sockaddr_in : sockaddr_in :=
  { sin_family := 0, sin_port := fun _ => 0, sin_addr := { s_addr := fun _ => 0 },
    sin_zero := fun _ => 0 }

/-- A stream configuration for the given address text and port 3000. -/
def example_cfg (addr : Option String) : cf_socket_cfg :=
  { addr := addr, port := 3000, reuse_addr := true, proto := SOCK_STREAM, sock := -1,
    saddr := zero_sockaddr_in }

/-- A datagram configuration for the given address text and port 3000. -/
def example_dgram_cfg (addr : Option String) : cf_socket_cfg :=
  { addr := addr, port := 3000, reuse_addr := true, proto := SOCK_DGRAM, sock := -1,
    saddr := zero_sockaddr_in }

/-- A script in which `connect` succeeds at once. -/
def example_connect_ok : ClientScript :=
  { socket := Outcome.ok, connect := Outcome.ok, start := 100,
    epoll_create := Outcome.ok, epoll_ctl_add := Outcome.ok, waits := [],
    epoll_ctl_del := Outcome.ok }

/-- A `struct sockaddr` of the given family whose first four data bytes after
the port are `a b c d`. -/
def example_sa (family : Nat) (a b c d : byte) : sockaddr :=
  { sa_family := family,
    sa_data := fun i =>
      if i.val = 2 then a else if i.val = 3 then b else if i.val = 4 then c
      else if i.val = 5 then d else 0 }

/-- An interface list: loopback (IPv4), a packet-family entry, an entry without
address, an IPv4 entry, and an IPv6 entry. -/
def example_ifaddrs : List ifaddrs :=
  [{ ifa_flags := 73, ifa_addr := some (example_sa AF_INET 127 0 0 1) },
   { ifa_flags := 4163, ifa_addr := some (example_sa 17 0 0 0 0) },
   { ifa_flags := 4163, ifa_addr := none },
   { ifa_flags := 4163, ifa_addr := some (example_sa AF_INET 10 0 0 5) },
   { ifa_flags := 4163, ifa_addr := some (example_sa 10 0 0 0 0) }]

/-- Caller memory before a call of `cf_ifaddr_get`: pointer 0, count -7, and a
buffer whose every record has flags 255. -/
def example_out : IfaddrOut :=
  { ifaddr := 0, ifaddr_sz := -7,
    arr := fun _ => { flags := 255, family := 255, sa := example_sa 255 9 9 9 9 } }

/-- A multicast configuration: group 239.1.2.3, port 9918, with the given
outbound-interface text and TTL. -/
def example_mcast (tx : Option String) (ttl : byte) : cf_mcastsocket_cfg :=
  { s := { addr := some "239.1.2.3", port := 9918, reuse_addr := false, proto := SOCK_DGRAM,
           sock := -1, saddr := zero_sockaddr_in }
    ireq := { imr_multiaddr := { s_addr := fun _ => 0 },
              imr_interface := { s_addr := fun _ => 0 } }
    tx_addr := tx
    mcast_ttl := ttl }

/-- A script for `cf_mcastsocket_init` in which the TTL option and the group join
fail, the first `bind` fails and the second succeeds. -/
def example_mcast_script : McastScript :=
  { socket := Outcome.ok, reuse_addr := Outcome.ok, inet_addr := fun _ => fun _ => 7,
    multicast_if := Outcome.ok, multicast_ttl := Outcome.fail 22,
    binds := [Outcome.fail 98, Outcome.ok], add_membership := Outcome.fail 19 }

/-! ## Theorems: the address codec -/

/-- C1: decoding the encoding of an `AF_INET` socket address gives back family
`AF_INET` and exactly the address and port bytes of the original, whatever
the two destinations held before. -/
theorem convertfrom_convertto_roundtrip (a : sockaddr_in) (d0 : cf_sockaddr)
    (d1 : sockaddr_in) (hfam : a.sin_family = AF_INET) :
    (cf_sockaddr_convertfrom (cf_sockaddr_convertto a d0) d1).sin_family = AF_INET ∧
    (cf_sockaddr_convertfrom (cf_sockaddr_convertto a d0) d1).sin_addr = a.sin_addr ∧
    (cf_sockaddr_convertfrom (cf_sockaddr_convertto a d0) d1).sin_port = a.sin_port := by
  refine ⟨rfl, ?_, ?_⟩
  · cases a with
    | mk fam port addr zero =>
      cases addr with
      | mk sa =>
        simp only at hfam
        simp only [cf_sockaddr_convertfrom, cf_sockaddr_convertto, hfam, ne_eq,
          not_true_eq_false, if_false, in_addr.mk.injEq]
        funext i
        fin_cases i <;> simp [memcpy, memset]
  · cases a with
    | mk fam port addr zero =>
      simp only at hfam
      simp only [cf_sockaddr_convertfrom, cf_sockaddr_convertto, hfam, ne_eq,
        not_true_eq_false, if_false]
      funext i
      fin_cases i <;> simp [memcpy, memset]


theorem convertfrom_convertto_roundtrip_witness :
    example_sockaddr.sin_family = AF_INET ∧
    (cf_sockaddr_convertfrom (cf_sockaddr_convertto example_sockaddr (fun _ => 255))
        zero_sockaddr_in).sin_family = AF_INET ∧
    (cf_sockaddr_convertfrom (cf_sockaddr_convertto example_sockaddr (fun _ => 255))
        zero_sockaddr_in).sin_addr = example_sockaddr.sin_addr ∧
    (cf_sockaddr_convertfrom (cf_sockaddr_convertto example_sockaddr (fun _ => 255))
        zero_sockaddr_in).sin_port = example_sockaddr.sin_port :=
  ⟨rfl, convertfrom_convertto_roundtrip example_sockaddr (fun _ => 255) zero_sockaddr_in rfl⟩

/-- C2: for an `AF_INET` source, after `cf_sockaddr_convertto` bytes 0..3 of the
destination are the address bytes, bytes 4..5 are the port bytes, both as they
lie in the socket address (network byte order: for a port stored by `htons`
the high byte comes first), bytes 6..7 are zero, and the result is the same for
every prior content of the destination. -/
theorem convertto_layout (a : sockaddr_in) (d : cf_sockaddr)
    (hfam : a.sin_family = AF_INET) :
    (∀ i : Fin 4, cf_sockaddr_convertto a d ⟨i.val, by omega⟩ = a.sin_addr.s_addr i) ∧
    (∀ i : Fin 2, cf_sockaddr_convertto a d ⟨4 + i.val, by omega⟩ = a.sin_port i) ∧
    cf_sockaddr_convertto a d ⟨6, by omega⟩ = 0 ∧
    cf_sockaddr_convertto a d ⟨7, by omega⟩ = 0 ∧
    (∀ p : Int, a.sin_port = htons p →
      (cf_sockaddr_convertto a d ⟨4, by omega⟩).val = (p % 65536).toNat / 256 ∧
      (cf_sockaddr_convertto a d ⟨5, by omega⟩).val = (p % 65536).toNat % 256) ∧
    (∀ d2 : cf_sockaddr, cf_sockaddr_convertto a d2 = cf_sockaddr_convertto a d) := by
  have hne : ¬ (a.sin_family ≠ AF_INET) := by simp [hfam]
  refine ⟨?_, ?_, ?_, ?_, ?_, ?_⟩
  · intro i
    simp only [cf_sockaddr_convertto, hne, if_false]
    fin_cases i <;> simp [memcpy, memset]
  · intro i
    simp only [cf_sockaddr_convertto, hne, if_false]
    fin_cases i <;> simp [memcpy, memset]
  · simp only [cf_sockaddr_convertto, hne, if_false]
    rfl
  · simp only [cf_sockaddr_convertto, hne, if_false]
    rfl
  · intro p hp
    have hlt : (p % 65536).toNat < 65536 := by omega
    constructor
    · simp only [cf_sockaddr_convertto, hne, if_false, hp]
      simp [memcpy, memset, htons, Fin.ofNat]
      omega
    · simp only [cf_sockaddr_convertto, hne, if_false, hp]
      simp [memcpy, memset, htons, Fin.ofNat]
  · intro d2
    simp only [cf_sockaddr_convertto, hne, if_false]
    funext i
    fin_cases i <;> simp [memcpy, memset]

theorem convertto_layout_witness :
    example_sockaddr.sin_family = AF_INET ∧
    cf_sockaddr_convertto example_sockaddr (fun _ => 255) ⟨6, by omega⟩ = 0 ∧
    cf_sockaddr_convertto example_sockaddr (fun _ => 255) ⟨7, by omega⟩ = 0 :=
  ⟨rfl, (convertto_layout example_sockaddr (fun _ => 255) rfl).2.2.1,
    (convertto_layout example_sockaddr (fun _ => 255) rfl).2.2.2.1⟩

/-- C3: for a source whose family is not `AF_INET`, `cf_sockaddr_convertto`
leaves all eight bytes of the destination as they were. -/
theorem convertto_other_family_unchanged (a : sockaddr_in) (d : cf_sockaddr)
    (hfam : a.sin_family ≠ AF_INET) :
    ∀ i : Fin 8, cf_sockaddr_convertto a d i = d i := by
  intro i
  simp [cf_sockaddr_convertto, hfam]

theorem convertto_other_family_unchanged_witness :
    zero_sockaddr_in.sin_family ≠ AF_INET ∧
    ∀ i : Fin 8, cf_sockaddr_convertto zero_sockaddr_in (fun _ => 255) i = 255 :=
  ⟨by decide, convertto_other_family_unchanged zero_sockaddr_in (fun _ => 255) (by decide)⟩

/-! ## Theorems: descriptor allocation -/

theorem lowestFreeFrom_not_mem (used : List Nat) :
    ∀ (fuel n : Nat), (∀ x ∈ used, x < n + fuel) → lowestFreeFrom used fuel n ∉ used := by
  intro fuel
  induction fuel with
  | zero =>
    intro n h hmem
    have := h _ hmem
    simp [lowestFreeFrom] at this
  | succ f ih =>
    intro n h
    unfold lowestFreeFrom
    by_cases hn : n ∈ used
    · rw [if_pos hn]
      exact ih (n + 1) (fun x hx => by have := h x hx; omega)
    · rw [if_neg hn]
      exact hn

theorem le_foldr_max (used : List Nat) : ∀ x ∈ used, x ≤ used.foldr max 0 := by
  induction used with
  | nil => intro x hx; cases hx
  | cons a t ih =>
    intro x hx
    simp only [List.foldr_cons]
    rcases List.mem_cons.mp hx with h | h
    · subst h; exact le_max_left _ _
    · exact le_trans (ih x h) (le_max_right _ _)

theorem lowestFree_not_mem (used : List Nat) : lowestFree used ∉ used := by
  unfold lowestFree
  apply lowestFreeFrom_not_mem
  intro x hx
  have := le_foldr_max used x hx
  omega

theorem lowestFree_eq_zero (used : List Nat) (h : 0 ∉ used) : lowestFree used = 0 := by
  simp [lowestFree, lowestFreeFrom, h]

/-! ## Theorems: the service socket initialiser -/

/-- C4 as stated fails: with the empty string as address and a non-zero port
`cf_socket_init_svc` does not return the configuration error -1; it creates a
socket (descriptor 3, left open) and hands the text to `inet_pton`. -/
theorem init_svc_empty_addr_reaches_os :
    (example_cfg (some "")).addr = some "" ∧
    (cf_socket_init_svc (example_cfg (some "")) example_os
        { socket := Outcome.ok, binds := [], listen := Outcome.ok }).map
      (fun r => (r.1, r.2.2.open_nums, r.2.2.trace))
      = some (0, [3, 0, 1, 2], [Call.socket SOCK_STREAM, Call.inet_pton ""]) := by
  decide

/-- C4, amended: when the address is absent (a null pointer) or the port is 0,
`cf_socket_init_svc` returns the configuration error -1 and makes no OS call:
configuration and process state, trace included, are unchanged. -/
theorem init_svc_rejects_null_addr_or_zero_port (s : cf_socket_cfg) (os : OS)
    (o : SvcScript) (h : s.addr = none ∨ s.port = 0) :
    cf_socket_init_svc s os o = some (-1, s, os) := by
  unfold cf_socket_init_svc
  rcases h with h | h
  · simp [h]
  · cases ha : s.addr with
    | none => simp
    | some a => simp [h]

theorem init_svc_rejects_null_addr_or_zero_port_witness :
    ((example_cfg none).addr = none ∨ (example_cfg none).port = 0) ∧
    cf_socket_init_svc (example_cfg none) example_os
        { socket := Outcome.ok, binds := [], listen := Outcome.ok }
      = some (-1, example_cfg none, example_os) :=
  ⟨Or.inl rfl, init_svc_rejects_null_addr_or_zero_port _ _ _ (Or.inl rfl)⟩

theorem svc_bind_loop_busy (s : cf_socket_cfg) (k : Nat) :
    ∀ (os : OS) (tail : List Outcome),
      svc_bind_loop s os (List.replicate k (Outcome.fail EADDRINUSE) ++ tail) =
      svc_bind_loop s
        { errno := if k = 0 then os.errno else ((EADDRINUSE : Nat) : Int)
          fds := os.fds
          trace := os.trace ++
            (List.replicate k [Call.bind s.sock, Call.nanosleep 5]).flatten } tail := by
  induction k with
  | zero => intro os tail; simp
  | succ k ih =>
    intro os tail
    simp only [List.replicate_succ, List.cons_append, svc_bind_loop, sys_call, OS.log,
      OS.failed]
    simp only [Int.reduceNeg, gt_iff_lt, Int.neg_neg_iff_pos, zero_lt_one, if_true, ne_eq,
      not_true_eq_false, if_false, List.append_eq]
    rw [ih]
    simp [List.append_assoc]

theorem svc_bind_loop_busy_ok (s : cf_socket_cfg) (k : Nat) (os : OS) (tail : List Outcome) :
    svc_bind_loop s os (List.replicate k (Outcome.fail EADDRINUSE) ++ Outcome.ok :: tail) =
      some (none,
        { errno := if k = 0 then os.errno else ((EADDRINUSE : Nat) : Int)
          fds := os.fds
          trace := os.trace ++
            (List.replicate k [Call.bind s.sock, Call.nanosleep 5]).flatten ++
            [Call.bind s.sock] }) := by
  rw [svc_bind_loop_busy]
  simp [svc_bind_loop, sys_call, OS.log]

theorem svc_bind_loop_busy_fail (s : cf_socket_cfg) (k : Nat) (os : OS) (tail : List Outcome)
    (e : ℕ+) (he : e ≠ EADDRINUSE) :
    svc_bind_loop s os (List.replicate k (Outcome.fail EADDRINUSE) ++ Outcome.fail e :: tail) =
      some (some ((e : Nat) : Int),
        { errno := ((e : Nat) : Int)
          fds := os.fds
          trace := os.trace ++
            (List.replicate k [Call.bind s.sock, Call.nanosleep 5]).flatten ++
            [Call.bind s.sock] }) := by
  rw [svc_bind_loop_busy]
  have h : ¬ (((EADDRINUSE : Nat) : Int) = ((e : Nat) : Int)) := by
    intro h
    exact he (PNat.coe_injective (Int.ofNat_inj.mp h)).symm
  simp [svc_bind_loop, sys_call, OS.log, OS.failed, h]

@[simp] theorem OS.log_trace (os : OS) (c : Call) : (os.log c).trace = os.trace ++ [c] := rfl
@[simp] theorem OS.log_errno (os : OS) (c : Call) : (os.log c).errno = os.errno := rfl
@[simp] theorem OS.log_fds (os : OS) (c : Call) : (os.log c).fds = os.fds := rfl
@[simp] theorem OS.log_open_nums (os : OS) (c : Call) : (os.log c).open_nums = os.open_nums :=
  rfl
@[simp] theorem OS.update_trace (os : OS) (fd : Int) (f : Fd → Fd) :
    (os.update fd f).trace = os.trace := rfl
@[simp] theorem OS.update_errno (os : OS) (fd : Int) (f : Fd → Fd) :
    (os.update fd f).errno = os.errno := rfl

@[simp] theorem sys_setsockopt_trace (os : OS) (fd : Int) (opt : SockOpt) :
    (sys_setsockopt os fd opt).trace = os.trace ++ [Call.setsockopt fd opt] := by
  cases opt with
  | SO_REUSEADDR => rfl
  | TCP_NODELAY =>
    simp only [sys_setsockopt]
    split
    · split
      · split <;> rfl
      · rfl
    · rfl

@[simp] theorem sys_setsockopt_errno (os : OS) (fd : Int) :
    (sys_setsockopt os fd SockOpt.SO_REUSEADDR).errno = os.errno := rfl

@[simp] theorem sys_fcntl_setfd_trace (os : OS) (fd : Int) (arg : Nat) :
    (sys_fcntl_setfd os fd arg).trace = os.trace ++ [Call.fcntl_setfd fd arg] := rfl

@[simp] theorem sys_fcntl_setfd_errno (os : OS) (fd : Int) (arg : Nat) :
    (sys_fcntl_setfd os fd arg).errno = os.errno := rfl

@[simp] theorem sys_fcntl_setfl_trace (os : OS) (fd : Int) (arg : Nat) :
    (sys_fcntl_setfl os fd arg).trace = os.trace ++ [Call.fcntl_setfl fd arg] := rfl

@[simp] theorem sys_fcntl_setfl_errno (os : OS) (fd : Int) (arg : Nat) :
    (sys_fcntl_setfl os fd arg).errno = os.errno := rfl

@[simp] theorem sys_close_trace (os : OS) (fd : Int) :
    (sys_close os fd).trace = os.trace ++ [Call.close fd] := rfl

@[simp] theorem sys_close_errno (os : OS) (fd : Int) : (sys_close os fd).errno = os.errno := rfl

theorem natCast_not_neg (n : Nat) : ¬ (0 : Int) > (n : Int) := by omega

/-- C5: in `cf_socket_init_svc` with a valid configuration, after any number
`k` of bind failures with `EADDRINUSE`, each followed by the 5-second sleep and
another bind: if the bind then succeeds, the call returns 0 when the protocol
is datagram or `listen` succeeds, having made exactly those `k` retries; if the
bind then fails with another error, that error code is returned at once, the
failed bind being the last call made. -/
theorem init_svc_bind_retry (s : cf_socket_cfg) (os : OS) (o : SvcScript) (addr : String)
    (k : Nat) (haddr : s.addr = some addr) (hwf : (pton4 addr).isSome = true)
    (hport : s.port ≠ 0) (hsock : o.socket = Outcome.ok) :
    (∀ tail, o.binds = List.replicate k (Outcome.fail EADDRINUSE) ++ Outcome.ok :: tail →
      (s.proto = SOCK_DGRAM ∨ o.listen = Outcome.ok) →
      ∃ s1 os1, cf_socket_init_svc s os o = some (0, s1, os1) ∧
        s1.sock = (lowestFree os.open_nums : Int) ∧
        os1.trace = os.trace ++ svc_calls_through_bind s addr (lowestFree os.open_nums) k ++
          (if SOCK_STREAM = s.proto then [Call.listen (lowestFree os.open_nums) 512]
           else [])) ∧
    (∀ tail e, e ≠ EADDRINUSE →
      o.binds = List.replicate k (Outcome.fail EADDRINUSE) ++ Outcome.fail e :: tail →
      ∃ s1 os1, cf_socket_init_svc s os o = some (((e : Nat) : Int), s1, os1) ∧
        s1.sock = (lowestFree os.open_nums : Int) ∧
        os1.trace = os.trace ++ svc_calls_through_bind s addr (lowestFree os.open_nums) k) := by
  obtain ⟨a, hparse⟩ := Option.isSome_iff_exists.mp hwf
  constructor
  · intro tail hb hl
    simp only [cf_socket_init_svc, haddr, hport, hsock, if_false, sys_socket, OS.alloc,
      cf_socket_cfg.set_sock, natCast_not_neg, sys_inet_pton, hparse, cf_socket_cfg.set_family,
      cf_socket_cfg.set_inet_addr, cf_socket_cfg.set_inet_port, hb, svc_bind_loop_busy_ok,
      ne_eq, not_true_eq_false, OS.log_open_nums]
    by_cases hp : SOCK_STREAM = s.proto
    · have hlis : o.listen = Outcome.ok := by
        rcases hl with h | h
        · rw [h] at hp; exact absurd hp (by decide)
        · exact h
      simp only [hp, if_true, hlis, sys_call]
      refine ⟨_, _, rfl, rfl, ?_⟩
      cases hr : s.reuse_addr <;>
        simp [svc_calls_through_bind, hr, List.append_assoc]
    · simp only [hp, if_false]
      refine ⟨_, _, rfl, rfl, ?_⟩
      cases hr : s.reuse_addr <;>
        simp [svc_calls_through_bind, hr, List.append_assoc]
  · intro tail e he hb
    simp only [cf_socket_init_svc, haddr, hport, hsock, if_false, sys_socket, OS.alloc,
      cf_socket_cfg.set_sock, natCast_not_neg, sys_inet_pton, hparse, cf_socket_cfg.set_family,
      cf_socket_cfg.set_inet_addr, cf_socket_cfg.set_inet_port, hb,
      svc_bind_loop_busy_fail _ _ _ _ _ he,
      ne_eq, not_true_eq_false, OS.log_open_nums]
    refine ⟨_, _, rfl, rfl, ?_⟩
    cases hr : s.reuse_addr <;>
      simp [svc_calls_through_bind, hr, List.append_assoc]

theorem init_svc_bind_retry_witness :
    ∃ s1 os1,
      cf_socket_init_svc (example_cfg (some "10.0.0.1")) example_os
          { socket := Outcome.ok
            binds := [Outcome.fail EADDRINUSE, Outcome.fail EADDRINUSE, Outcome.ok]
            listen := Outcome.ok } = some (0, s1, os1) ∧
        s1.sock = 3 ∧
        os1.trace =
          [Call.socket SOCK_STREAM, Call.inet_pton "10.0.0.1",
           Call.setsockopt 3 SockOpt.SO_REUSEADDR, Call.fcntl_setfd 3 FD_CLOEXEC,
           Call.bind 3, Call.nanosleep 5, Call.bind 3, Call.nanosleep 5, Call.bind 3,
           Call.listen 3 512] :=
  (init_svc_bind_retry (example_cfg (some "10.0.0.1")) example_os
      { socket := Outcome.ok
        binds := [Outcome.fail EADDRINUSE, Outcome.fail EADDRINUSE, Outcome.ok]
        listen := Outcome.ok } "10.0.0.1" 2 rfl (by decide) (by decide) rfl).1 []
    rfl (Or.inr rfl)

/-- C6 fails on the code: for the malformed address text "localhost", a non-zero
port and `errno = 0` before the call, `cf_socket_init_svc` returns 0, the value
of success, after `socket` and `inet_pton` only; no bind is made and the socket
(descriptor 3) stays open. -/
theorem init_svc_malformed_addr_returns_zero :
    pton4 "localhost" = none ∧ (example_cfg (some "localhost")).port ≠ 0 ∧
    example_os.errno = 0 ∧
    (cf_socket_init_svc (example_cfg (some "localhost")) example_os
        { socket := Outcome.ok, binds := [Outcome.ok], listen := Outcome.ok }).map
      (fun r => (r.1, r.2.2.open_nums, r.2.2.trace))
      = some (0, [3, 0, 1, 2], [Call.socket SOCK_STREAM, Call.inet_pton "localhost"]) := by
  decide

/-- For a malformed address text and a non-zero port `cf_socket_init_svc` returns
whatever `errno` held before the call: `inet_pton` returns 0 without setting it.
The calls made are `socket` and `inet_pton`; the new socket stays open. -/
theorem init_svc_malformed_addr_returns_prior_errno (s : cf_socket_cfg) (os : OS)
    (o : SvcScript) (addr : String) (haddr : s.addr = some addr)
    (hbad : pton4 addr = none) (hport : s.port ≠ 0) (hsock : o.socket = Outcome.ok) :
    ∃ s1 os1, cf_socket_init_svc s os o = some (os.errno, s1, os1) ∧
      os1.trace = os.trace ++ [Call.socket s.proto, Call.inet_pton addr] ∧
      os1.open_nums = lowestFree os.open_nums :: os.open_nums := by
  simp only [cf_socket_init_svc, haddr, hport, hsock, if_false, sys_socket, OS.alloc,
    cf_socket_cfg.set_sock, natCast_not_neg, sys_inet_pton, hbad, OS.log_open_nums]
  refine ⟨_, _, rfl, ?_, ?_⟩
  · simp
  · simp [OS.open_nums, Fd.fresh]

/-- C10 fails on the code: when `bind` fails with `EACCES` (13) in
`cf_socket_init_svc`, the call returns 13 and the socket it created
(descriptor 3) is still open: the open descriptors are 3, 0, 1, 2 after the
failed call and 0, 1, 2 before it; no `close` is among the calls made. -/
theorem init_svc_bind_failure_leaves_socket_open :
    example_os.open_nums = [0, 1, 2] ∧
    (cf_socket_init_svc (example_cfg (some "10.0.0.1")) example_os
        { socket := Outcome.ok, binds := [Outcome.fail 13], listen := Outcome.ok }).map
      (fun r => (r.1, r.2.2.open_nums, r.2.2.trace))
      = some (13, [3, 0, 1, 2],
          [Call.socket SOCK_STREAM, Call.inet_pton "10.0.0.1",
           Call.setsockopt 3 SockOpt.SO_REUSEADDR, Call.fcntl_setfd 3 FD_CLOEXEC,
           Call.bind 3]) := by
  decide

/-! ## Theorems: the client connector -/

/-- C7 fails on the code: after `connect` returned `EINPROGRESS`, an event for the
target socket with flags `EPOLLOUT | EPOLLERR | EPOLLHUP` (what a refused
connection delivers) makes `cf_socket_init_client` return 0: the socket
(descriptor 3) stays open, the handle is 3 and the finalization calls are
made. -/
theorem init_client_error_event_with_writable_succeeds :
    28 &&& EPOLLERR ≠ 0 ∧ 28 &&& EPOLLHUP ≠ 0 ∧
    (cf_socket_init_client (example_cfg (some "10.0.0.1")) 1000 example_os
        { socket := Outcome.ok, connect := Outcome.fail EINPROGRESS, start := 100,
          epoll_create := Outcome.ok, epoll_ctl_add := Outcome.ok,
          waits := [(WaitOutcome.events 1 3 28, 101)],
          epoll_ctl_del := Outcome.ok }).map
      (fun r => (r.1, r.2.1.sock, r.2.2.open_nums, r.2.2.trace))
      = some (0, 3, [3, 0, 1, 2],
          [Call.socket SOCK_STREAM, Call.fcntl_setfd 3 FD_CLOEXEC,
           Call.fcntl_setfl 3 O_NONBLOCK, Call.inet_pton "10.0.0.1", Call.connect 3,
           Call.cf_getms, Call.epoll_create, Call.epoll_ctl_add 4 3, Call.epoll_wait 4 1,
           Call.epoll_ctl_del 4 3, Call.close 4, Call.setsockopt 3 SockOpt.TCP_NODELAY,
           Call.fcntl_getfl 3, Call.fcntl_setfl 3 0]) := by
  decide

theorem lowestFree_pos_after (u : List Nat) : 0 < lowestFree (lowestFree u :: u) := by
  by_contra h
  have h0 : lowestFree (lowestFree u :: u) = 0 := by omega
  have hn := lowestFree_not_mem (lowestFree u :: u)
  rw [h0] at hn
  simp only [List.mem_cons, not_or] at hn
  exact hn.1 (lowestFree_eq_zero u hn.2).symm

theorem filter_ne_of_fresh (fds : List Fd) (n : Nat) (h : n ∉ fds.map Fd.num) :
    fds.filter (fun d => decide ((d.num : Int) ≠ (n : Int))) = fds := by
  apply List.filter_eq_self.mpr
  intro d hd
  simp only [decide_eq_true_eq]
  intro heq
  apply h
  have hnum : d.num = n := by exact_mod_cast heq
  exact List.mem_map.mpr ⟨d, hd, hnum⟩

theorem map_update_of_fresh (fds : List Fd) (n : Nat) (f : Fd → Fd)
    (h : n ∉ fds.map Fd.num) :
    fds.map (fun d => if (d.num : Int) = (n : Int) then f d else d) = fds := by
  conv_rhs => rw [← List.map_id fds]
  apply List.map_congr_left
  intro d hd
  have hne : ¬ ((d.num : Int) = (n : Int)) := by
    intro heq
    apply h
    have hnum : d.num = n := by exact_mod_cast heq
    exact List.mem_map.mpr ⟨d, hd, hnum⟩
  simp [hne]

theorem deadline_passed_iff (start : Nat) (timeout : Int) (t : Nat) (ht : t < 2 ^ 64)
    (h0 : 0 ≤ (start : Int) + timeout) (h1 : (start : Int) + timeout < 2 ^ 64) :
    deadline_passed start timeout (t % 2 ^ 64) = true ↔ timeout < (t : Int) - (start : Int) := by
  unfold deadline_passed
  rw [Nat.mod_eq_of_lt ht]
  simp only [decide_eq_true_eq]
  have hm : ((start + (timeout % 2 ^ 64).toNat) % 2 ^ 64 : Nat) = ((start : Int) + timeout).toNat := by
    omega
  rw [hm]
  omega

theorem client_wait_body_indecisive (s : cf_socket_cfg) (epfd : Int) (del : Outcome) (os : OS)
    (w : WaitOutcome) (h : w.indecisive s.sock = true) :
    ∃ os1, client_wait_body s epfd del os w = WaitStep.retry os1 ∧ os1.fds = os.fds ∧
      os1.trace = os.trace ++ [Call.epoll_wait epfd 1] := by
  cases w with
  | fail e =>
    simp only [WaitOutcome.indecisive, decide_eq_true_eq] at h
    subst h
    refine ⟨(sys_epoll_wait os epfd (WaitOutcome.fail EINTR)).2, ?_, rfl, rfl⟩
    simp [client_wait_body, sys_epoll_wait, OS.failed]
  | events n fd ev =>
    simp only [WaitOutcome.indecisive, Bool.or_eq_true, decide_eq_true_eq] at h
    refine ⟨os.log (Call.epoll_wait epfd 1), ?_, rfl, rfl⟩
    simp only [client_wait_body, sys_epoll_wait, natCast_not_neg, if_false,
      WaitOutcome.data_fd]
    rcases h with h | h
    · simp [h]
    · simp [h]

theorem client_wait_loop_indecisive (s : cf_socket_cfg) (timeout : Int) (start : Nat)
    (epfd : Int) (del : Outcome) :
    ∀ (pre : List (WaitOutcome × Nat)) (os : OS) (tail : List (WaitOutcome × Nat)),
      (∀ p ∈ pre, p.1.indecisive s.sock = true ∧
        deadline_passed start timeout (p.2 % 2 ^ 64) = false) →
      ∃ os1, client_wait_loop s timeout start epfd del os (pre ++ tail) =
          client_wait_loop s timeout start epfd del os1 tail ∧
        os1.fds = os.fds ∧
        os1.trace = os.trace ++
          (pre.map (fun _ => [Call.epoll_wait epfd 1, Call.cf_getms])).flatten := by
  intro pre
  induction pre with
  | nil => intro os tail _; exact ⟨os, rfl, rfl, by simp⟩
  | cons p pre ih =>
    intro os tail h
    obtain ⟨w, t⟩ := p
    have hp := h (w, t) (List.mem_cons_self _ _)
    obtain ⟨osb, hbody, hfds, htr⟩ := client_wait_body_indecisive s epfd del os w hp.1
    obtain ⟨os1, hloop, hfds1, htr1⟩ :=
      ih (osb.log Call.cf_getms) tail (fun q hq => h q (List.mem_cons_of_mem _ hq))
    refine ⟨os1, ?_, ?_, ?_⟩
    · simp only [List.cons_append, client_wait_loop, hbody, sys_cf_getms, hp.2]
      simpa using hloop
    · rw [hfds1, OS.log_fds, hfds]
    · rw [htr1, OS.log_trace, htr]
      simp [List.append_assoc]

theorem client_wait_loop_timeout (s : cf_socket_cfg) (timeout : Int) (start : Nat)
    (epfd : Int) (del : Outcome) (os : OS) (w : WaitOutcome) (t : Nat)
    (rest : List (WaitOutcome × Nat)) (hw : w.indecisive s.sock = true)
    (hd : deadline_passed start timeout (t % 2 ^ 64) = true) :
    ∃ os1, client_wait_loop s timeout start epfd del os ((w, t) :: rest) =
        some (client_fail s os1 epfd) ∧
      os1.errno = ((ETIMEDOUT : Nat) : Int) ∧ os1.fds = os.fds ∧
      os1.trace = os.trace ++ [Call.epoll_wait epfd 1, Call.cf_getms] := by
  obtain ⟨osb, hbody, hfds, htr⟩ := client_wait_body_indecisive s epfd del os w hw
  refine ⟨{ osb.log Call.cf_getms with errno := ((ETIMEDOUT : Nat) : Int) }, ?_, rfl, ?_, ?_⟩
  · simp only [client_wait_loop, hbody, sys_cf_getms, hd, if_true]
  · simpa using hfds
  · simp [htr]

theorem OS.update_open_nums (os : OS) (fd : Int) (f : Fd → Fd)
    (hf : ∀ d, (f d).num = d.num) : (os.update fd f).open_nums = os.open_nums := by
  simp only [OS.update, OS.open_nums, List.map_map]
  apply List.map_congr_left
  intro d _
  by_cases h : (d.num : Int) = fd <;> simp [h, hf]

@[simp] theorem sys_fcntl_setfd_open_nums (os : OS) (fd : Int) (arg : Nat) :
    (sys_fcntl_setfd os fd arg).open_nums = os.open_nums := by
  unfold sys_fcntl_setfd
  rw [OS.update_open_nums]
  · rfl
  · intro d; rfl

@[simp] theorem sys_fcntl_setfl_open_nums (os : OS) (fd : Int) (arg : Nat) :
    (sys_fcntl_setfl os fd arg).open_nums = os.open_nums := by
  unfold sys_fcntl_setfl
  rw [OS.update_open_nums]
  · rfl
  · intro d; rfl

@[simp] theorem sys_setsockopt_open_nums (os : OS) (fd : Int) (opt : SockOpt) :
    (sys_setsockopt os fd opt).open_nums = os.open_nums := by
  cases opt with
  | SO_REUSEADDR =>
    simp only [sys_setsockopt]
    rw [OS.update_open_nums]
    · rfl
    · intro d; rfl
  | TCP_NODELAY =>
    simp only [sys_setsockopt]
    split
    · split
      · split
        · rw [OS.update_open_nums]
          · rfl
          · intro d; rfl
        · rfl
      · rfl
    · rfl

@[simp] theorem sys_socket_ok_fst (os : OS) (proto : Int) :
    (sys_socket os proto Outcome.ok).1 = (lowestFree os.open_nums : Int) := rfl
@[simp] theorem sys_socket_ok_fds (os : OS) (proto : Int) :
    (sys_socket os proto Outcome.ok).2.fds =
      Fd.fresh (lowestFree os.open_nums) (FdKind.sock proto) :: os.fds := rfl
@[simp] theorem sys_socket_ok_open_nums (os : OS) (proto : Int) :
    (sys_socket os proto Outcome.ok).2.open_nums = lowestFree os.open_nums :: os.open_nums :=
  rfl
@[simp] theorem sys_socket_ok_trace (os : OS) (proto : Int) :
    (sys_socket os proto Outcome.ok).2.trace = os.trace ++ [Call.socket proto] := rfl
@[simp] theorem sys_socket_ok_errno (os : OS) (proto : Int) :
    (sys_socket os proto Outcome.ok).2.errno = os.errno := rfl
@[simp] theorem sys_socket_fail_fst (os : OS) (proto : Int) (e : ℕ+) :
    (sys_socket os proto (Outcome.fail e)).1 = -1 := rfl
@[simp] theorem sys_socket_fail_snd (os : OS) (proto : Int) (e : ℕ+) :
    (sys_socket os proto (Outcome.fail e)).2 =
      { os.log (Call.socket proto) with errno := ((e : Nat) : Int) } := rfl

@[simp] theorem sys_epoll_create_ok_fst (os : OS) :
    (sys_epoll_create os Outcome.ok).1 = (lowestFree os.open_nums : Int) := rfl
@[simp] theorem sys_epoll_create_ok_fds (os : OS) :
    (sys_epoll_create os Outcome.ok).2.fds =
      Fd.fresh (lowestFree os.open_nums) FdKind.epoll :: os.fds := rfl
@[simp] theorem sys_epoll_create_ok_trace (os : OS) :
    (sys_epoll_create os Outcome.ok).2.trace = os.trace ++ [Call.epoll_create] := rfl
@[simp] theorem sys_epoll_create_ok_errno (os : OS) :
    (sys_epoll_create os Outcome.ok).2.errno = os.errno := rfl
@[simp] theorem sys_epoll_create_fail_fst (os : OS) (e : ℕ+) :
    (sys_epoll_create os (Outcome.fail e)).1 = -1 := rfl
@[simp] theorem sys_epoll_create_fail_snd (os : OS) (e : ℕ+) :
    (sys_epoll_create os (Outcome.fail e)).2 =
      { os.log Call.epoll_create with errno := ((e : Nat) : Int) } := rfl

@[simp] theorem sys_call_ok_fst (os : OS) (c : Call) : (sys_call os c Outcome.ok).1 = 0 := rfl
@[simp] theorem sys_call_ok_snd (os : OS) (c : Call) :
    (sys_call os c Outcome.ok).2 = os.log c := rfl
@[simp] theorem sys_call_fail_fst (os : OS) (c : Call) (e : ℕ+) :
    (sys_call os c (Outcome.fail e)).1 = -1 := rfl
@[simp] theorem sys_call_fail_snd (os : OS) (c : Call) (e : ℕ+) :
    (sys_call os c (Outcome.fail e)).2 = { os.log c with errno := ((e : Nat) : Int) } := rfl
@[simp] theorem sys_call_fds (os : OS) (c : Call) (r : Outcome) :
    (sys_call os c r).2.fds = os.fds := by
  cases r <;> rfl
@[simp] theorem sys_call_trace (os : OS) (c : Call) (r : Outcome) :
    (sys_call os c r).2.trace = os.trace ++ [c] := by
  cases r <;> rfl

@[simp] theorem sys_cf_getms_fst (os : OS) (r : Nat) : (sys_cf_getms os r).1 = r % 2 ^ 64 := rfl
@[simp] theorem sys_cf_getms_snd (os : OS) (r : Nat) :
    (sys_cf_getms os r).2 = os.log Call.cf_getms := rfl

@[simp] theorem sys_inet_pton_some (os : OS) (src : String) (dst a : Mem 4)
    (h : pton4 src = some a) :
    sys_inet_pton os src dst = (1, a, os.log (Call.inet_pton src)) := by
  simp [sys_inet_pton, h]

@[simp] theorem sys_inet_pton_none (os : OS) (src : String) (dst : Mem 4)
    (h : pton4 src = none) :
    sys_inet_pton os src dst = (0, dst, os.log (Call.inet_pton src)) := by
  simp [sys_inet_pton, h]

theorem client_in_progress_timeout (s : cf_socket_cfg) (timeout : Int) (os : OS)
    (o : ClientScript) (pre : List (WaitOutcome × Nat)) (w : WaitOutcome) (t : Nat)
    (rest : List (WaitOutcome × Nat))
    (hcreate : o.epoll_create = Outcome.ok) (hadd : o.epoll_ctl_add = Outcome.ok)
    (hstart : o.start < 2 ^ 64)
    (hlo : 0 ≤ (o.start : Int) + timeout) (hhi : (o.start : Int) + timeout < 2 ^ 64)
    (hwaits : o.waits = pre ++ (w, t) :: rest)
    (hpre : ∀ p ∈ pre, p.1.indecisive s.sock = true ∧ p.2 < 2 ^ 64 ∧
      ¬ (timeout < (p.2 : Int) - (o.start : Int)))
    (hw : w.indecisive s.sock = true) (ht : t < 2 ^ 64)
    (hexc : timeout < (t : Int) - (o.start : Int))
    (hpos : 0 < lowestFree os.open_nums) :
    ∃ os1, client_in_progress s timeout os o
        = some (((ETIMEDOUT : Nat) : Int), s.set_sock (-1), os1) ∧
      os1.fds = os.fds.filter (fun d => decide ((d.num : Int) ≠ s.sock)) ∧
      os1.trace = os.trace ++
        [Call.cf_getms, Call.epoll_create,
         Call.epoll_ctl_add (lowestFree os.open_nums) s.sock] ++
        ((pre ++ [(w, t)]).map
          (fun _ => [Call.epoll_wait (lowestFree os.open_nums) 1, Call.cf_getms])).flatten ++
        [Call.close (lowestFree os.open_nums), Call.close s.sock] := by
  have hstart1 : o.start % 2 ^ 64 = o.start := Nat.mod_eq_of_lt hstart
  have hpre1 : ∀ p ∈ pre, p.1.indecisive s.sock = true ∧
      deadline_passed o.start timeout (p.2 % 2 ^ 64) = false := by
    intro p hp
    obtain ⟨h1, h2, h3⟩ := hpre p hp
    refine ⟨h1, ?_⟩
    cases hd : deadline_passed o.start timeout (p.2 % 2 ^ 64) with
    | false => rfl
    | true => exact absurd ((deadline_passed_iff o.start timeout p.2 h2 hlo hhi).mp hd) h3
  have hd : deadline_passed o.start timeout (t % 2 ^ 64) = true :=
    (deadline_passed_iff o.start timeout t ht hlo hhi).mpr hexc
  obtain ⟨os4, hloop, hf4, ht4⟩ := client_wait_loop_indecisive s timeout o.start
    (lowestFree os.open_nums) o.epoll_ctl_del pre
    (((sys_epoll_create (os.log Call.cf_getms) Outcome.ok).2).log
      (Call.epoll_ctl_add (lowestFree os.open_nums) s.sock)) ((w, t) :: rest) hpre1
  obtain ⟨os5, hto, he5, hf5, ht5⟩ := client_wait_loop_timeout s timeout o.start
    (lowestFree os.open_nums) o.epoll_ctl_del os4 w t rest hw hd
  have hmain : client_in_progress s timeout os o =
      some (client_fail s os5 (lowestFree os.open_nums)) := by
    unfold client_in_progress
    simp only [hcreate, hadd, hwaits, sys_cf_getms_fst, sys_cf_getms_snd,
      sys_epoll_create_ok_fst, OS.log_open_nums, natCast_not_neg, if_false, sys_call_ok_fst,
      sys_call_ok_snd, gt_iff_lt, lt_self_iff_false, hstart1]
    rw [hloop, hto]
  have hposi : ((lowestFree os.open_nums : Nat) : Int) > 0 := by omega
  refine ⟨(client_fail s os5 (lowestFree os.open_nums)).2.2, ?_, ?_, ?_⟩
  · rw [hmain]
    simp [client_fail, hposi, he5]
  · simp only [client_fail, hposi, if_true, sys_close, OS.log_fds, hf5, hf4,
      sys_epoll_create_ok_fds, OS.log_open_nums]
    rw [List.filter_cons]
    simp only [Fd.fresh, ne_eq, not_true_eq_false, decide_False, Bool.false_eq_true,
      if_false]
    rw [filter_ne_of_fresh os.fds _ (lowestFree_not_mem os.open_nums)]
  · simp only [client_fail, hposi, if_true, sys_close_trace, ht5, ht4, OS.log_trace,
      sys_epoll_create_ok_trace]
    simp [List.append_assoc]

@[simp] theorem cf_socket_cfg.sock_set_inet_port (s : cf_socket_cfg) :
    s.set_inet_port.sock = s.sock := rfl
@[simp] theorem cf_socket_cfg.sock_set_inet_addr (s : cf_socket_cfg) (a : Mem 4) :
    (s.set_inet_addr a).sock = s.sock := rfl
@[simp] theorem cf_socket_cfg.sock_set_family (s : cf_socket_cfg) :
    s.set_family.sock = s.sock := rfl
@[simp] theorem cf_socket_cfg.sock_clear_saddr (s : cf_socket_cfg) :
    s.clear_saddr.sock = s.sock := rfl
@[simp] theorem cf_socket_cfg.sock_set_sock (s : cf_socket_cfg) (fd : Int) :
    (s.set_sock fd).sock = fd := rfl
@[simp] theorem cf_socket_cfg.addr_set_family (s : cf_socket_cfg) :
    s.set_family.addr = s.addr := rfl
@[simp] theorem cf_socket_cfg.addr_clear_saddr (s : cf_socket_cfg) :
    s.clear_saddr.addr = s.addr := rfl
@[simp] theorem cf_socket_cfg.addr_set_sock (s : cf_socket_cfg) (fd : Int) :
    (s.set_sock fd).addr = s.addr := rfl

/-- The configuration of `cf_socket_init_client` when `connect` is issued and
the state right after a `connect` with the given outcome, for a well-formed
address. -/
theorem init_client_to_connect (s : cf_socket_cfg) (timeout : Int) (os : OS)
    (o : ClientScript) (addr : String) (a : Mem 4) (haddr : s.addr = some addr)
    (hparse : pton4 addr = some a) (hsock : o.socket = Outcome.ok) :
    cf_socket_init_client s timeout os o =
      (if (sys_call
            ((sys_fcntl_setfl (sys_fcntl_setfd (sys_socket os s.proto Outcome.ok).2
              (lowestFree os.open_nums) FD_CLOEXEC) (lowestFree os.open_nums) O_NONBLOCK).log
              (Call.inet_pton addr))
            (Call.connect (lowestFree os.open_nums)) o.connect).1 < 0 then
        if (sys_call
            ((sys_fcntl_setfl (sys_fcntl_setfd (sys_socket os s.proto Outcome.ok).2
              (lowestFree os.open_nums) FD_CLOEXEC) (lowestFree os.open_nums) O_NONBLOCK).log
              (Call.inet_pton addr))
            (Call.connect (lowestFree os.open_nums)) o.connect).2.errno
            = ((EINPROGRESS : Nat) : Int) then
          client_in_progress
            (((((s.set_sock (lowestFree os.open_nums)).clear_saddr).set_family).set_inet_addr
              a).set_inet_port) timeout
            (sys_call
              ((sys_fcntl_setfl (sys_fcntl_setfd (sys_socket os s.proto Outcome.ok).2
                (lowestFree os.open_nums) FD_CLOEXEC) (lowestFree os.open_nums) O_NONBLOCK).log
                (Call.inet_pton addr))
              (Call.connect (lowestFree os.open_nums)) o.connect).2 o
        else
          some (client_fail
            (((((s.set_sock (lowestFree os.open_nums)).clear_saddr).set_family).set_inet_addr
              a).set_inet_port)
            (sys_call
              ((sys_fcntl_setfl (sys_fcntl_setfd (sys_socket os s.proto Outcome.ok).2
                (lowestFree os.open_nums) FD_CLOEXEC) (lowestFree os.open_nums) O_NONBLOCK).log
                (Call.inet_pton addr))
              (Call.connect (lowestFree os.open_nums)) o.connect).2 (-1))
      else
        some (client_success
          (((((s.set_sock (lowestFree os.open_nums)).clear_saddr).set_family).set_inet_addr
            a).set_inet_port)
          (sys_call
            ((sys_fcntl_setfl (sys_fcntl_setfd (sys_socket os s.proto Outcome.ok).2
              (lowestFree os.open_nums) FD_CLOEXEC) (lowestFree os.open_nums) O_NONBLOCK).log
              (Call.inet_pton addr))
            (Call.connect (lowestFree os.open_nums)) o.connect).2)) := by
  unfold cf_socket_init_client
  simp only [hsock, sys_socket_ok_fst, cf_socket_cfg.sock_set_sock, natCast_not_neg, if_false,
    cf_socket_cfg.addr_set_family, cf_socket_cfg.addr_clear_saddr,
    cf_socket_cfg.addr_set_sock, haddr, sys_inet_pton_some _ _ _ _ hparse,
    cf_socket_cfg.sock_set_inet_port, cf_socket_cfg.sock_set_inet_addr,
    cf_socket_cfg.sock_set_family, cf_socket_cfg.sock_clear_saddr]
  simp

theorem map_eq_self_of_fresh (fds : List Fd) (n : Nat) (g : Fd → Fd)
    (hg : ∀ d : Fd, (d.num : Int) ≠ (n : Int) → g d = d) (h : n ∉ fds.map Fd.num) :
    fds.map g = fds := by
  conv_rhs => rw [← List.map_id fds]
  apply List.map_congr_left
  intro d hd
  have hne : (d.num : Int) ≠ (n : Int) := by
    intro heq
    apply h
    have hnum : d.num = n := by exact_mod_cast heq
    exact List.mem_map.mpr ⟨d, hd, hnum⟩
  simp [hg d hne]

theorem init_client_fds_at_connect (os : OS) (proto : Int) (addr : String) (r : Outcome) :
    ∃ d : Fd, d.num = lowestFree os.open_nums ∧
      (sys_call
        ((sys_fcntl_setfl (sys_fcntl_setfd (sys_socket os proto Outcome.ok).2
          (lowestFree os.open_nums) FD_CLOEXEC) (lowestFree os.open_nums) O_NONBLOCK).log
          (Call.inet_pton addr))
        (Call.connect (lowestFree os.open_nums)) r).2.fds = d :: os.fds := by
  have hfresh := lowestFree_not_mem os.open_nums
  refine ⟨{ Fd.fresh (lowestFree os.open_nums) (FdKind.sock proto) with
              cloexec := decide (FD_CLOEXEC % 2 = FD_CLOEXEC), fl := O_NONBLOCK }, rfl, ?_⟩
  simp only [sys_call_fds, OS.log_fds, sys_fcntl_setfl, sys_fcntl_setfd, OS.update,
    sys_socket_ok_fds, List.map_cons, List.map_map, Fd.fresh, if_true]
  congr 1
  apply map_eq_self_of_fresh os.fds (lowestFree os.open_nums) _ _ hfresh
  intro d hd
  have hd1 : d.num ≠ lowestFree os.open_nums := fun h => hd (by rw [h])
  simp [hd1]

/-- C8: in the wait loop of `cf_socket_init_client`, when every wait up to and
including the one before the failing check is indecisive (interrupted, no
event, or an event of another descriptor), the clock is read for a deadline
check after each of these waits, and the call fails with `ETIMEDOUT` exactly at
the first check at which the time elapsed since the start of the loop exceeds
the timeout: the earlier checks let the loop go on, and at return both the
event context and the socket are closed (the descriptor table is what it was
before the call) and the handle is -1. -/
theorem init_client_deadline (s : cf_socket_cfg) (timeout : Int) (os : OS)
    (o : ClientScript) (addr : String) (pre : List (WaitOutcome × Nat)) (w : WaitOutcome)
    (t : Nat) (rest : List (WaitOutcome × Nat))
    (haddr : s.addr = some addr) (hwf : (pton4 addr).isSome = true)
    (hsock : o.socket = Outcome.ok) (hconn : o.connect = Outcome.fail EINPROGRESS)
    (hcreate : o.epoll_create = Outcome.ok) (hadd : o.epoll_ctl_add = Outcome.ok)
    (hstart : o.start < 2 ^ 64)
    (hlo : 0 ≤ (o.start : Int) + timeout) (hhi : (o.start : Int) + timeout < 2 ^ 64)
    (hwaits : o.waits = pre ++ (w, t) :: rest)
    (hpre : ∀ p ∈ pre, p.1.indecisive (lowestFree os.open_nums) = true ∧ p.2 < 2 ^ 64 ∧
      ¬ (timeout < (p.2 : Int) - (o.start : Int)))
    (hw : w.indecisive (lowestFree os.open_nums) = true) (ht : t < 2 ^ 64)
    (hexc : timeout < (t : Int) - (o.start : Int)) :
    ∃ s1 os1, cf_socket_init_client s timeout os o
        = some (((ETIMEDOUT : Nat) : Int), s1, os1) ∧
      s1.sock = -1 ∧ os1.fds = os.fds ∧
      os1.trace = os.trace ++
        client_calls_through_connect s addr (lowestFree os.open_nums) ++
        [Call.cf_getms, Call.epoll_create,
         Call.epoll_ctl_add (lowestFree (lowestFree os.open_nums :: os.open_nums))
           (lowestFree os.open_nums)] ++
        ((pre ++ [(w, t)]).map
          (fun _ => [Call.epoll_wait (lowestFree (lowestFree os.open_nums :: os.open_nums)) 1,
                     Call.cf_getms])).flatten ++
        [Call.close (lowestFree (lowestFree os.open_nums :: os.open_nums)),
         Call.close (lowestFree os.open_nums)] := by
  obtain ⟨a, hparse⟩ := Option.isSome_iff_exists.mp hwf
  obtain ⟨d, hdnum, hfds⟩ :=
    init_client_fds_at_connect os s.proto addr (Outcome.fail EINPROGRESS)
  have hnums : (sys_call
        ((sys_fcntl_setfl (sys_fcntl_setfd (sys_socket os s.proto Outcome.ok).2
          (lowestFree os.open_nums) FD_CLOEXEC) (lowestFree os.open_nums) O_NONBLOCK).log
          (Call.inet_pton addr))
        (Call.connect (lowestFree os.open_nums)) (Outcome.fail EINPROGRESS)).2.open_nums
      = lowestFree os.open_nums :: os.open_nums := by
    show List.map Fd.num _ = _
    rw [hfds, List.map_cons, hdnum]
    rfl
  obtain ⟨os1, hrun, hf1, ht1⟩ := client_in_progress_timeout
    (((((s.set_sock (lowestFree os.open_nums)).clear_saddr).set_family).set_inet_addr
      a).set_inet_port) timeout
    (sys_call
        ((sys_fcntl_setfl (sys_fcntl_setfd (sys_socket os s.proto Outcome.ok).2
          (lowestFree os.open_nums) FD_CLOEXEC) (lowestFree os.open_nums) O_NONBLOCK).log
          (Call.inet_pton addr))
        (Call.connect (lowestFree os.open_nums)) (Outcome.fail EINPROGRESS)).2
    o pre w t rest hcreate hadd hstart hlo hhi hwaits hpre hw ht hexc
    (by rw [hnums]; exact lowestFree_pos_after os.open_nums)
  refine ⟨(((((s.set_sock (lowestFree os.open_nums)).clear_saddr).set_family).set_inet_addr
      a).set_inet_port).set_sock (-1), os1, ?_, ?_, ?_, ?_⟩
  · rw [init_client_to_connect s timeout os o addr a haddr hparse hsock, hconn]
    simp only [sys_call_fail_fst, sys_call_fail_snd, Int.reduceNeg, Int.neg_neg_iff_pos,
      zero_lt_one, if_true]
    exact hrun
  · rfl
  · rw [hf1, hfds, List.filter_cons]
    simp only [cf_socket_cfg.sock_set_inet_port, cf_socket_cfg.sock_set_inet_addr,
      cf_socket_cfg.sock_set_family, cf_socket_cfg.sock_clear_saddr,
      cf_socket_cfg.sock_set_sock, hdnum, ne_eq, not_true_eq_false, decide_False,
      Bool.false_eq_true, if_false]
    exact filter_ne_of_fresh os.fds _ (lowestFree_not_mem os.open_nums)
  · rw [ht1, hnums]
    simp [client_calls_through_connect, List.append_assoc]

theorem init_client_deadline_witness :
    ∃ s1 os1,
      cf_socket_init_client (example_cfg (some "10.0.0.1")) 10 example_os
          { socket := Outcome.ok, connect := Outcome.fail EINPROGRESS, start := 100,
            epoll_create := Outcome.ok, epoll_ctl_add := Outcome.ok,
            waits := [(WaitOutcome.events 0 0 0, 105), (WaitOutcome.fail EINTR, 110),
                      (WaitOutcome.events 1 7 4, 111), (WaitOutcome.events 1 3 4, 112)],
            epoll_ctl_del := Outcome.ok } = some (110, s1, os1) ∧
        s1.sock = -1 ∧ os1.fds = example_os.fds ∧
        os1.trace =
          [Call.socket SOCK_STREAM, Call.fcntl_setfd 3 FD_CLOEXEC,
           Call.fcntl_setfl 3 O_NONBLOCK, Call.inet_pton "10.0.0.1", Call.connect 3,
           Call.cf_getms, Call.epoll_create, Call.epoll_ctl_add 4 3,
           Call.epoll_wait 4 1, Call.cf_getms, Call.epoll_wait 4 1, Call.cf_getms,
           Call.epoll_wait 4 1, Call.cf_getms, Call.close 4, Call.close 3] :=
  init_client_deadline (example_cfg (some "10.0.0.1")) 10 example_os
    { socket := Outcome.ok, connect := Outcome.fail EINPROGRESS, start := 100,
      epoll_create := Outcome.ok, epoll_ctl_add := Outcome.ok,
      waits := [(WaitOutcome.events 0 0 0, 105), (WaitOutcome.fail EINTR, 110),
                (WaitOutcome.events 1 7 4, 111), (WaitOutcome.events 1 3 4, 112)],
      epoll_ctl_del := Outcome.ok }
    "10.0.0.1" [(WaitOutcome.events 0 0 0, 105), (WaitOutcome.fail EINTR, 110)]
    (WaitOutcome.events 1 7 4) 111 [(WaitOutcome.events 1 3 4, 112)]
    rfl (by decide) rfl rfl rfl rfl (by decide) (by decide) (by decide) rfl (by decide)
    (by decide) (by decide) (by decide)

theorem and_not_O_NONBLOCK_clear (farg : Int) : and_not_O_NONBLOCK farg &&& O_NONBLOCK = 0 := by
  unfold and_not_O_NONBLOCK
  rw [Nat.and_assoc]
  have h : (2 ^ 64 - 1 - O_NONBLOCK) &&& O_NONBLOCK = 0 := by decide
  rw [h, Nat.and_zero]

/-- When `connect` is issued the descriptor table holds, before the descriptors
that were open at the call, the new socket, and no other entry has its number:
every entry with that number is a socket of the requested type. -/
theorem init_client_kind_at_connect (os : OS) (proto : Int) (addr : String) (r : Outcome) :
    ∀ d ∈ (sys_call
        ((sys_fcntl_setfl (sys_fcntl_setfd (sys_socket os proto Outcome.ok).2
          (lowestFree os.open_nums) FD_CLOEXEC) (lowestFree os.open_nums) O_NONBLOCK).log
          (Call.inet_pton addr))
        (Call.connect (lowestFree os.open_nums)) r).2.fds,
      (d.num : Int) = (lowestFree os.open_nums : Int) → d.kind = FdKind.sock proto := by
  intro d hd hnum
  have hnat : d.num = lowestFree os.open_nums := by exact_mod_cast hnum
  simp only [sys_call_fds, OS.log_fds, sys_fcntl_setfl, sys_fcntl_setfd, OS.update,
    sys_socket_ok_fds, List.map_cons, List.map_map, List.mem_cons, List.mem_map] at hd
  rcases hd with hd | ⟨d0, hd0, hd⟩
  · rw [hd]
    simp [Fd.fresh]
  · exfalso
    by_cases h0 : d0.num = lowestFree os.open_nums
    · exact lowestFree_not_mem os.open_nums (List.mem_map.mpr ⟨d0, hd0, h0⟩)
    · simp only [Function.comp, Nat.cast_inj, h0, if_false] at hd
      rw [hd] at h0
      exact h0 hnat

theorem client_post_extend (fd : Int) (proto : Int) (base extra : List Call)
    (r : Int × cf_socket_cfg × OS)
    (hx : ∀ c ∈ extra, c.is_finalization = false) (h : client_post fd proto (base ++ extra) r) :
    client_post fd proto base r := by
  obtain ⟨calls, hc, h⟩ := h
  refine ⟨extra ++ calls, ?_, ?_⟩
  · intro c hmem
    rcases List.mem_append.mp hmem with h1 | h1
    · exact hx c h1
    · exact hc c h1
  · rcases h with ⟨h0, hs, ⟨arg, htr, harg⟩, hd⟩ | ⟨h0, htr⟩
    · exact Or.inl ⟨h0, hs, ⟨arg, by rw [htr]; simp [List.append_assoc], harg⟩, hd⟩
    · exact Or.inr ⟨h0, by rw [htr]; simp [List.append_assoc]⟩

@[simp] theorem sys_fcntl_getfl_snd (os : OS) (fd : Int) :
    (sys_fcntl_getfl os fd).2 = os.log (Call.fcntl_getfl fd) := by
  unfold sys_fcntl_getfl
  simp only []
  split <;> rfl

/-- The descriptor table after `TCP_NODELAY` is set on an open descriptor that is
a socket of type `proto`: no-delay is set when the type is `SOCK_STREAM`, and
nothing changes otherwise. -/
theorem sys_setsockopt_nodelay_fds (os : OS) (fd : Int) (proto : Int)
    (hent : ∃ d ∈ os.fds, (d.num : Int) = fd)
    (hkind : ∀ d ∈ os.fds, (d.num : Int) = fd → d.kind = FdKind.sock proto) :
    (sys_setsockopt os fd SockOpt.TCP_NODELAY).fds =
      if proto = SOCK_STREAM then
        os.fds.map (fun d => if (d.num : Int) = fd then { d with nodelay := true } else d)
      else os.fds := by
  cases hf : os.fds.find? (fun d => decide ((d.num : Int) = fd)) with
  | none =>
    obtain ⟨d, hd, hnum⟩ := hent
    have h := List.find?_eq_none.mp hf d hd
    simp [hnum] at h
  | some d0 =>
    have hmem : d0 ∈ os.fds := List.mem_of_find?_eq_some hf
    have hnum : (d0.num : Int) = fd := by
      have h := List.find?_some hf
      simpa using h
    have hk := hkind d0 hmem hnum
    by_cases hp : proto = SOCK_STREAM
    · simp only [sys_setsockopt, OS.log_fds, hf, hk, hp, if_true]
      rfl
    · simp only [sys_setsockopt, OS.log_fds, hf, hk, hp, if_false]

theorem client_success_post (s : cf_socket_cfg) (os : OS) (proto : Int)
    (hent : ∃ d ∈ os.fds, (d.num : Int) = s.sock)
    (hkind : ∀ d ∈ os.fds, (d.num : Int) = s.sock → d.kind = FdKind.sock proto) :
    client_post s.sock proto os.trace (client_success s os) := by
  have hfds := sys_setsockopt_nodelay_fds os s.sock proto hent hkind
  obtain ⟨d, hd, hnum⟩ := hent
  refine ⟨[], by simp, Or.inl ⟨rfl, rfl,
    ⟨and_not_O_NONBLOCK
        (sys_fcntl_getfl (sys_setsockopt os s.sock SockOpt.TCP_NODELAY) s.sock).1,
      ?_, and_not_O_NONBLOCK_clear _⟩, ?_⟩⟩
  · simp [client_success]
  · by_cases hp : proto = SOCK_STREAM
    · rw [if_pos hp] at hfds
      refine ⟨{ d with
                 nodelay := true
                 fl := and_not_O_NONBLOCK
                   (sys_fcntl_getfl (sys_setsockopt os s.sock SockOpt.TCP_NODELAY) s.sock).1 },
        ?_, hnum, fun _ => rfl, and_not_O_NONBLOCK_clear _⟩
      simp only [client_success, sys_fcntl_setfl, OS.update, OS.log_fds,
        sys_fcntl_getfl_snd, hfds, List.mem_map, List.map_map]
      exact ⟨d, hd, by simp [hnum]⟩
    · rw [if_neg hp] at hfds
      refine ⟨{ d with
                 fl := and_not_O_NONBLOCK
                   (sys_fcntl_getfl (sys_setsockopt os s.sock SockOpt.TCP_NODELAY) s.sock).1 },
        ?_, hnum, fun h => absurd h hp, and_not_O_NONBLOCK_clear _⟩
      simp only [client_success, sys_fcntl_setfl, OS.update, OS.log_fds,
        sys_fcntl_getfl_snd, hfds, List.mem_map]
      exact ⟨d, hd, by simp [hnum]⟩

theorem client_fail_post (s : cf_socket_cfg) (os : OS) (epfd fd : Int) (proto : Int)
    (herr : 0 < os.errno) :
    client_post fd proto os.trace (client_fail s os epfd) := by
  by_cases hp : epfd > 0
  · refine ⟨[Call.close epfd, Call.close s.sock], ?_, Or.inr ⟨?_, ?_⟩⟩
    · intro c hc
      simp only [List.mem_cons, List.mem_singleton, List.not_mem_nil, or_false] at hc
      rcases hc with h | h <;> subst h <;> rfl
    · simp only [client_fail, hp, if_true, sys_close_errno]
      omega
    · simp [client_fail, hp]
  · refine ⟨[Call.close s.sock], ?_, Or.inr ⟨?_, ?_⟩⟩
    · intro c hc
      simp only [List.mem_singleton] at hc
      subst hc
      rfl
    · simp only [client_fail, hp, if_false, sys_close_errno]
      omega
    · simp [client_fail, hp]

theorem pnat_errno_pos (e : ℕ+) : (0 : Int) < ((e : Nat) : Int) := by
  have := e.pos
  omega

/-- Where one pass through the body of the wait loop leaves the process. -/
theorem client_wait_body_cases (s : cf_socket_cfg) (epfd : Int) (del : Outcome) (os : OS)
    (w : WaitOutcome) (herr : 0 < os.errno) :
    (∃ os1, client_wait_body s epfd del os w = WaitStep.retry os1 ∧ 0 < os1.errno ∧
      os1.fds = os.fds ∧ os1.trace = os.trace ++ [Call.epoll_wait epfd 1]) ∨
    (∃ os1, client_wait_body s epfd del os w = WaitStep.fail os1 ∧ 0 < os1.errno ∧
      os1.fds = os.fds ∧ os1.trace = os.trace ++ [Call.epoll_wait epfd 1]) ∨
    (∃ os1, client_wait_body s epfd del os w = WaitStep.success os1 ∧
      os1.fds = os.fds.filter (fun d => decide ((d.num : Int) ≠ epfd)) ∧
      os1.trace = os.trace ++
        [Call.epoll_wait epfd 1, Call.epoll_ctl_del epfd s.sock, Call.close epfd]) := by
  cases w with
  | fail e =>
    by_cases he : ((e : Nat) : Int) = ((EINTR : Nat) : Int)
    · refine Or.inl ⟨(sys_epoll_wait os epfd (WaitOutcome.fail e)).2, ?_,
        pnat_errno_pos e, rfl, rfl⟩
      simp [client_wait_body, sys_epoll_wait, OS.failed, he]
    · refine Or.inr (Or.inl ⟨(sys_epoll_wait os epfd (WaitOutcome.fail e)).2, ?_,
        pnat_errno_pos e, rfl, rfl⟩)
      simp [client_wait_body, sys_epoll_wait, OS.failed, he]
  | events n fd ev =>
    by_cases hn : (n : Int) = 0
    · refine Or.inl ⟨os.log (Call.epoll_wait epfd 1), ?_, herr, rfl, rfl⟩
      simp [client_wait_body, sys_epoll_wait, hn]
    · by_cases hfd : fd = s.sock
      · by_cases hout : ev &&& EPOLLOUT ≠ 0
        · refine Or.inr (Or.inr ⟨sys_close (sys_call (os.log (Call.epoll_wait epfd 1))
            (Call.epoll_ctl_del epfd s.sock) del).2 epfd, ?_, ?_, ?_⟩)
          · simp only [client_wait_body, sys_epoll_wait, natCast_not_neg, if_false, hn,
              WaitOutcome.data_fd, hfd, if_true, WaitOutcome.flags]
            rw [if_pos hout]
          · simp [sys_close]
          · simp
        · refine Or.inr (Or.inl ⟨os.log (Call.epoll_wait epfd 1), ?_, herr, rfl, rfl⟩)
          simp only [client_wait_body, sys_epoll_wait, natCast_not_neg, if_false, hn,
            WaitOutcome.data_fd, hfd, if_true, WaitOutcome.flags]
          rw [if_neg hout]
      · refine Or.inl ⟨os.log (Call.epoll_wait epfd 1), ?_, herr, rfl, rfl⟩
        simp only [client_wait_body, sys_epoll_wait, natCast_not_neg, if_false, hn,
          WaitOutcome.data_fd, hfd]

theorem client_wait_loop_post (s : cf_socket_cfg) (timeout : Int) (start : Nat) (epfd : Int)
    (del : Outcome) (proto : Int) (hne : epfd ≠ s.sock) :
    ∀ (waits : List (WaitOutcome × Nat)) (os : OS) (r : Int × cf_socket_cfg × OS),
      0 < os.errno → (∃ d ∈ os.fds, (d.num : Int) = s.sock) →
      (∀ d ∈ os.fds, (d.num : Int) = s.sock → d.kind = FdKind.sock proto) →
      client_wait_loop s timeout start epfd del os waits = some r →
      client_post s.sock proto os.trace r := by
  intro waits
  induction waits with
  | nil => intro os r _ _ _ h; simp [client_wait_loop] at h
  | cons p waits ih =>
    intro os r herr hent hkind hrun
    obtain ⟨w, t⟩ := p
    rcases client_wait_body_cases s epfd del os w herr with
      ⟨os1, hb, he1, hf1, ht1⟩ | ⟨os1, hb, he1, hf1, ht1⟩ | ⟨os1, hb, hf1, ht1⟩
    · simp only [client_wait_loop, hb, sys_cf_getms_fst, sys_cf_getms_snd] at hrun
      by_cases hd : deadline_passed start timeout (t % 2 ^ 64) = true
      · simp only [hd, if_true, Option.some.injEq] at hrun
        subst hrun
        apply client_post_extend s.sock proto os.trace [Call.epoll_wait epfd 1, Call.cf_getms]
        · intro c hc
          simp only [List.mem_cons, List.mem_singleton, List.not_mem_nil, or_false] at hc
          rcases hc with h | h <;> subst h <;> rfl
        · have h := client_fail_post s
            { os1.log Call.cf_getms with errno := ((ETIMEDOUT : Nat) : Int) } epfd s.sock
            proto (pnat_errno_pos ETIMEDOUT)
          simpa [ht1] using h
      · simp only [hd, if_false] at hrun
        apply client_post_extend s.sock proto os.trace [Call.epoll_wait epfd 1, Call.cf_getms]
        · intro c hc
          simp only [List.mem_cons, List.mem_singleton, List.not_mem_nil, or_false] at hc
          rcases hc with h | h <;> subst h <;> rfl
        · have h := ih (os1.log Call.cf_getms) r (by simpa using he1)
            (by simpa [hf1] using hent) (by simpa [hf1] using hkind) hrun
          simpa [ht1] using h
    · simp only [client_wait_loop, hb, Option.some.injEq] at hrun
      subst hrun
      apply client_post_extend s.sock proto os.trace [Call.epoll_wait epfd 1]
      · intro c hc
        simp only [List.mem_singleton] at hc
        subst hc
        rfl
      · have h := client_fail_post s os1 epfd s.sock proto he1
        simpa [ht1] using h
    · simp only [client_wait_loop, hb, Option.some.injEq] at hrun
      subst hrun
      apply client_post_extend s.sock proto os.trace
        [Call.epoll_wait epfd 1, Call.epoll_ctl_del epfd s.sock, Call.close epfd]
      · intro c hc
        simp only [List.mem_cons, List.mem_singleton, List.not_mem_nil, or_false] at hc
        rcases hc with h | h | h <;> subst h <;> rfl
      · have hent1 : ∃ d ∈ os1.fds, (d.num : Int) = s.sock := by
          obtain ⟨d, hd, hnum⟩ := hent
          refine ⟨d, ?_, hnum⟩
          rw [hf1]
          apply List.mem_filter.mpr
          refine ⟨hd, ?_⟩
          simp only [decide_eq_true_eq, hnum]
          exact fun h => hne h.symm
        have hkind1 : ∀ d ∈ os1.fds, (d.num : Int) = s.sock → d.kind = FdKind.sock proto := by
          intro d hd hnum
          rw [hf1] at hd
          exact hkind d (List.mem_filter.mp hd).1 hnum
        have h := client_success_post s os1 proto hent1 hkind1
        simpa [ht1] using h

theorem client_in_progress_post (s : cf_socket_cfg) (timeout : Int) (os : OS)
    (o : ClientScript) (r : Int × cf_socket_cfg × OS) (proto : Int) (herr : 0 < os.errno)
    (hent : ∃ d ∈ os.fds, (d.num : Int) = s.sock)
    (hkind : ∀ d ∈ os.fds, (d.num : Int) = s.sock → d.kind = FdKind.sock proto)
    (hrun : client_in_progress s timeout os o = some r) :
    client_post s.sock proto os.trace r := by
  unfold client_in_progress at hrun
  cases hc : o.epoll_create with
  | fail e =>
    simp only [hc, sys_cf_getms_snd, sys_epoll_create_fail_fst, sys_epoll_create_fail_snd,
      gt_iff_lt, Int.reduceNeg, Int.neg_neg_iff_pos, zero_lt_one, if_true,
      Option.some.injEq] at hrun
    subst hrun
    apply client_post_extend s.sock proto os.trace [Call.cf_getms, Call.epoll_create]
    · intro c hmem
      simp only [List.mem_cons, List.mem_singleton, List.not_mem_nil, or_false] at hmem
      rcases hmem with h | h <;> subst h <;> rfl
    · have h := client_fail_post s
        { (os.log Call.cf_getms).log Call.epoll_create with errno := ((e : Nat) : Int) }
        (-1) s.sock proto (pnat_errno_pos e)
      simpa using h
  | ok =>
    have hne : ((lowestFree os.open_nums : Nat) : Int) ≠ s.sock := by
      obtain ⟨d, hd, hnum⟩ := hent
      intro heq
      apply lowestFree_not_mem os.open_nums
      have hnat : d.num = lowestFree os.open_nums := by
        have : (d.num : Int) = ((lowestFree os.open_nums : Nat) : Int) := by rw [hnum, heq]
        exact_mod_cast this
      exact List.mem_map.mpr ⟨d, hd, hnat⟩
    cases ha : o.epoll_ctl_add with
    | fail e =>
      simp only [hc, ha, sys_cf_getms_snd, sys_epoll_create_ok_fst, OS.log_open_nums,
        natCast_not_neg, if_false, sys_call_fail_fst, sys_call_fail_snd, gt_iff_lt,
        Int.reduceNeg, Int.neg_neg_iff_pos, zero_lt_one, if_true, Option.some.injEq] at hrun
      subst hrun
      apply client_post_extend s.sock proto os.trace
        [Call.cf_getms, Call.epoll_create,
         Call.epoll_ctl_add (lowestFree os.open_nums) s.sock]
      · intro c hmem
        simp only [List.mem_cons, List.mem_singleton, List.not_mem_nil, or_false] at hmem
        rcases hmem with h | h | h <;> subst h <;> rfl
      · have h := client_fail_post s
          { ((sys_epoll_create (os.log Call.cf_getms) Outcome.ok).2).log
              (Call.epoll_ctl_add (lowestFree os.open_nums) s.sock) with
            errno := ((e : Nat) : Int) }
          (lowestFree os.open_nums) s.sock proto (pnat_errno_pos e)
        simpa using h
    | ok =>
      simp only [hc, ha, sys_cf_getms_snd, sys_cf_getms_fst, sys_epoll_create_ok_fst,
        OS.log_open_nums, natCast_not_neg, if_false, sys_call_ok_fst, sys_call_ok_snd,
        gt_iff_lt, lt_self_iff_false] at hrun
      apply client_post_extend s.sock proto os.trace
        [Call.cf_getms, Call.epoll_create,
         Call.epoll_ctl_add (lowestFree os.open_nums) s.sock]
      · intro c hmem
        simp only [List.mem_cons, List.mem_singleton, List.not_mem_nil, or_false] at hmem
        rcases hmem with h | h | h <;> subst h <;> rfl
      · have h := client_wait_loop_post s timeout (o.start % 2 ^ 64)
          (lowestFree os.open_nums) o.epoll_ctl_del proto hne o.waits
          (((sys_epoll_create (os.log Call.cf_getms) Outcome.ok).2).log
            (Call.epoll_ctl_add (lowestFree os.open_nums) s.sock)) r
          (by simpa using herr)
          (by
            obtain ⟨d, hd, hnum⟩ := hent
            exact ⟨d, by simp [hd], hnum⟩)
          (by
            intro d hd hnum
            simp only [OS.log_fds, sys_epoll_create_ok_fds, List.mem_cons] at hd
            rcases hd with hd | hd
            · exfalso
              apply hne
              rw [← hnum, hd]
              rfl
            · exact hkind d hd hnum)
          hrun
        simpa using h

theorem client_calls_through_connect_not_finalization (s : cf_socket_cfg) (addr : String)
    (fd : Int) : ∀ c ∈ client_calls_through_connect s addr fd, c.is_finalization = false := by
  intro c hc
  simp only [client_calls_through_connect, List.mem_cons, List.mem_singleton,
    List.not_mem_nil, or_false] at hc
  rcases hc with h | h | h | h | h <;> subst h <;> rfl

theorem client_post_after_connect (s : cf_socket_cfg) (os : OS) (addr : String) (fd : Int)
    (rc : Int) (s1 : cf_socket_cfg) (os1 : OS)
    (h : client_post fd s.proto (os.trace ++ client_calls_through_connect s addr fd)
      (rc, s1, os1)) :
    (rc = 0 →
      s1.sock = fd ∧
      (∃ mid arg,
        os1.trace = os.trace ++ client_calls_through_connect s addr fd ++ mid ++
          [Call.setsockopt fd SockOpt.TCP_NODELAY, Call.fcntl_getfl fd,
           Call.fcntl_setfl fd arg] ∧
        (∀ c ∈ mid, c.is_finalization = false) ∧ arg &&& O_NONBLOCK = 0) ∧
      (∃ d ∈ os1.fds, (d.num : Int) = fd ∧ (s.proto = SOCK_STREAM → d.nodelay = true) ∧
        d.fl &&& O_NONBLOCK = 0)) ∧
    (rc ≠ 0 → ∃ calls, os1.trace = os.trace ++ calls ∧
      ∀ c ∈ calls, c.is_finalization = false) := by
  obtain ⟨calls, hcalls, h⟩ := h
  rcases h with ⟨h0, hs, ⟨arg, htr, harg⟩, hd⟩ | ⟨h0, htr⟩
  · refine ⟨fun _ => ⟨hs, ⟨calls, arg, htr, hcalls, harg⟩, hd⟩, fun hne => absurd h0 hne⟩
  · refine ⟨fun h => absurd h h0, fun _ =>
      ⟨client_calls_through_connect s addr fd ++ calls, ?_, ?_⟩⟩
    · rw [htr, List.append_assoc]
    · intro c hc
      rcases List.mem_append.mp hc with h1 | h1
      · exact client_calls_through_connect_not_finalization s addr fd c h1
      · exact hcalls c h1

/-- What every return of `cf_socket_init_client` satisfies: with 0 the
non-blocking mode was set before `connect`, the finalization calls are the last
calls and the socket is open with `O_NONBLOCK` clear and, when it is a stream
socket, with no-delay set; with a non-zero value no finalization call was
made. -/
theorem init_client_return_post (s : cf_socket_cfg) (timeout : Int) (os : OS)
    (o : ClientScript) (rc : Int) (s1 : cf_socket_cfg) (os1 : OS)
    (hrun : cf_socket_init_client s timeout os o = some (rc, s1, os1)) :
    (rc = 0 →
      s1.sock = (lowestFree os.open_nums : Int) ∧
      (∃ addr mid arg, s.addr = some addr ∧
        os1.trace = os.trace ++
          client_calls_through_connect s addr (lowestFree os.open_nums) ++ mid ++
          [Call.setsockopt (lowestFree os.open_nums) SockOpt.TCP_NODELAY,
           Call.fcntl_getfl (lowestFree os.open_nums),
           Call.fcntl_setfl (lowestFree os.open_nums) arg] ∧
        (∀ c ∈ mid, c.is_finalization = false) ∧ arg &&& O_NONBLOCK = 0) ∧
      (∃ d ∈ os1.fds, (d.num : Int) = (lowestFree os.open_nums : Int) ∧
        (s.proto = SOCK_STREAM → d.nodelay = true) ∧ d.fl &&& O_NONBLOCK = 0)) ∧
    (rc ≠ 0 → ∃ calls, os1.trace = os.trace ++ calls ∧
      ∀ c ∈ calls, c.is_finalization = false) := by
  cases hs : o.socket with
  | fail e =>
    simp only [cf_socket_init_client, hs, sys_socket_fail_fst, sys_socket_fail_snd,
      cf_socket_cfg.sock_set_sock, gt_iff_lt, Int.reduceNeg, Int.neg_neg_iff_pos,
      zero_lt_one, if_true, Option.some.injEq, Prod.mk.injEq] at hrun
    obtain ⟨h1, _, h3⟩ := hrun
    have hpos := pnat_errno_pos e
    refine ⟨fun h0 => ?_, fun _ => ⟨[Call.socket s.proto], ?_, ?_⟩⟩
    · rw [h1, h0] at hpos
      exact absurd hpos (lt_irrefl 0)
    · rw [← h3]
      rfl
    · intro c hc
      simp only [List.mem_singleton] at hc
      subst hc
      rfl
  | ok =>
    cases haddr : s.addr with
    | none =>
      simp [cf_socket_init_client, hs, natCast_not_neg, haddr] at hrun
    | some addr =>
      cases hp : pton4 addr with
      | none =>
        simp only [cf_socket_init_client, hs, sys_socket_ok_fst, cf_socket_cfg.sock_set_sock,
          natCast_not_neg, if_false, cf_socket_cfg.addr_set_family,
          cf_socket_cfg.addr_clear_saddr, cf_socket_cfg.addr_set_sock, haddr,
          sys_inet_pton_none _ _ _ hp, lt_self_iff_false, if_true, Option.some.injEq,
          Prod.mk.injEq] at hrun
        obtain ⟨h1, _, h3⟩ := hrun
        refine ⟨fun h0 => ?_, fun _ =>
          ⟨[Call.socket s.proto, Call.fcntl_setfd (lowestFree os.open_nums) FD_CLOEXEC,
            Call.fcntl_setfl (lowestFree os.open_nums) O_NONBLOCK, Call.inet_pton addr,
            Call.close (lowestFree os.open_nums)], ?_, ?_⟩⟩
        · rw [← h1] at h0
          exact absurd h0 (by decide)
        · rw [← h3]
          simp
        · intro c hc
          simp only [List.mem_cons, List.mem_singleton, List.not_mem_nil, or_false] at hc
          rcases hc with h | h | h | h | h <;> subst h <;> rfl
      | some a =>
        rw [init_client_to_connect s timeout os o addr a haddr hp hs] at hrun
        obtain ⟨d, hdnum, hfds⟩ := init_client_fds_at_connect os s.proto addr o.connect
        have hent : ∃ d ∈ (sys_call
            ((sys_fcntl_setfl (sys_fcntl_setfd (sys_socket os s.proto Outcome.ok).2
              (lowestFree os.open_nums) FD_CLOEXEC) (lowestFree os.open_nums) O_NONBLOCK).log
              (Call.inet_pton addr))
            (Call.connect (lowestFree os.open_nums)) o.connect).2.fds,
            (d.num : Int) = (((((s.set_sock (lowestFree os.open_nums)).clear_saddr).set_family
              ).set_inet_addr a).set_inet_port).sock := by
          refine ⟨d, ?_, ?_⟩
          · rw [hfds]
            exact List.mem_cons_self _ _
          · simp [hdnum]
        have htrace : (sys_call
            ((sys_fcntl_setfl (sys_fcntl_setfd (sys_socket os s.proto Outcome.ok).2
              (lowestFree os.open_nums) FD_CLOEXEC) (lowestFree os.open_nums) O_NONBLOCK).log
              (Call.inet_pton addr))
            (Call.connect (lowestFree os.open_nums)) o.connect).2.trace
            = os.trace ++ client_calls_through_connect s addr (lowestFree os.open_nums) := by
          simp [client_calls_through_connect]
        have hkind := init_client_kind_at_connect os s.proto addr o.connect
        have hpost : client_post (lowestFree os.open_nums) s.proto
            (os.trace ++ client_calls_through_connect s addr (lowestFree os.open_nums))
            (rc, s1, os1) := by
          rw [← htrace]
          cases hc : o.connect with
          | ok =>
            rw [hc] at hrun hent hkind
            simp only [sys_call_ok_fst, lt_self_iff_false, if_false, Option.some.injEq]
              at hrun
            rw [← hrun]
            exact client_success_post _ _ s.proto hent hkind
          | fail e =>
            rw [hc] at hrun hent hkind
            simp only [sys_call_fail_fst, Int.reduceNeg, Int.neg_neg_iff_pos, zero_lt_one,
              if_true] at hrun
            by_cases hin : ((e : Nat) : Int) = ((EINPROGRESS : Nat) : Int)
            · simp only [sys_call_fail_snd, hin, if_true] at hrun
              have h := client_in_progress_post _ timeout _ o (rc, s1, os1) s.proto
                (by simp [pnat_errno_pos e]) hent hkind (by simpa [hin] using hrun)
              simpa using h
            · simp only [sys_call_fail_snd, hin, if_false, Option.some.injEq] at hrun
              rw [← hrun]
              have h := client_fail_post
                (((((s.set_sock (lowestFree os.open_nums)).clear_saddr).set_family
                  ).set_inet_addr a).set_inet_port)
                (sys_call
                  ((sys_fcntl_setfl (sys_fcntl_setfd (sys_socket os s.proto Outcome.ok).2
                    (lowestFree os.open_nums) FD_CLOEXEC) (lowestFree os.open_nums)
                    O_NONBLOCK).log (Call.inet_pton addr))
                  (Call.connect (lowestFree os.open_nums)) (Outcome.fail e)).2
                (-1) (lowestFree os.open_nums) s.proto (by simp [pnat_errno_pos e])
              simpa using h
        have hfin := client_post_after_connect s os addr _ rc s1 os1 hpost
        refine ⟨fun h0 => ?_, hfin.2⟩
        obtain ⟨h1, ⟨mid, arg, h2⟩, h3⟩ := hfin.1 h0
        exact ⟨h1, ⟨addr, mid, arg, rfl, h2⟩, h3⟩

theorem client_wait_loop_writable (s : cf_socket_cfg) (timeout : Int) (start : Nat)
    (epfd : Int) (del : Outcome) (os : OS) (n : Nat) (ev t : Nat)
    (rest : List (WaitOutcome × Nat)) (hn : n ≠ 0) (hout : ev &&& EPOLLOUT ≠ 0) :
    ∃ os1, client_wait_loop s timeout start epfd del os
        ((WaitOutcome.events n s.sock ev, t) :: rest) = some (client_success s os1) := by
  have hn1 : ¬ ((n : Int) = 0) := by omega
  refine ⟨sys_close (sys_call (os.log (Call.epoll_wait epfd 1))
    (Call.epoll_ctl_del epfd s.sock) del).2 epfd, ?_⟩
  simp only [client_wait_loop, client_wait_body, sys_epoll_wait, natCast_not_neg, if_false,
    hn1, WaitOutcome.data_fd, if_true, WaitOutcome.flags]
  rw [if_pos hout]

theorem client_in_progress_writable (s : cf_socket_cfg) (timeout : Int) (os : OS)
    (o : ClientScript) (pre : List (WaitOutcome × Nat)) (n : Nat) (ev t : Nat)
    (rest : List (WaitOutcome × Nat))
    (hcreate : o.epoll_create = Outcome.ok) (hadd : o.epoll_ctl_add = Outcome.ok)
    (hwaits : o.waits = pre ++ (WaitOutcome.events n s.sock ev, t) :: rest)
    (hpre : ∀ p ∈ pre, p.1.indecisive s.sock = true ∧
      deadline_passed (o.start % 2 ^ 64) timeout (p.2 % 2 ^ 64) = false)
    (hn : n ≠ 0) (hout : ev &&& EPOLLOUT ≠ 0) :
    ∃ os1, client_in_progress s timeout os o = some (client_success s os1) := by
  obtain ⟨os4, hloop, _, _⟩ := client_wait_loop_indecisive s timeout (o.start % 2 ^ 64)
    (lowestFree os.open_nums) o.epoll_ctl_del pre
    (((sys_epoll_create (os.log Call.cf_getms) Outcome.ok).2).log
      (Call.epoll_ctl_add (lowestFree os.open_nums) s.sock))
    ((WaitOutcome.events n s.sock ev, t) :: rest) hpre
  obtain ⟨os5, hw⟩ := client_wait_loop_writable s timeout (o.start % 2 ^ 64)
    (lowestFree os.open_nums) o.epoll_ctl_del os4 n ev t rest hn hout
  refine ⟨os5, ?_⟩
  unfold client_in_progress
  simp only [hcreate, hadd, hwaits, sys_cf_getms_fst, sys_cf_getms_snd,
    sys_epoll_create_ok_fst, OS.log_open_nums, natCast_not_neg, if_false, sys_call_ok_fst,
    sys_call_ok_snd, gt_iff_lt, lt_self_iff_false]
  rw [hloop, hw]

/-- C9, amended: `cf_socket_init_client` returns 0 when `connect` succeeds at once
and when, after `EINPROGRESS`, a writable event for the socket follows waits
that decide nothing within the deadline. Whenever it returns 0, the call that
put the socket in non-blocking mode (`fcntl(F_SETFL, O_NONBLOCK)`) was made
before `connect` was issued, the three finalization calls (setting
`TCP_NODELAY`, reading the status flags, writing them back without
`O_NONBLOCK`) are the last calls made, and at return the socket is open with
`O_NONBLOCK` cleared and, when the configured socket type is `SOCK_STREAM`, with
no-delay set. Whenever it returns a non-zero value, none of the calls it made
belongs to the finalization. -/
theorem init_client_finalization (s : cf_socket_cfg) (timeout : Int) (os : OS)
    (o : ClientScript) :
    (∀ addr, s.addr = some addr → (pton4 addr).isSome = true → o.socket = Outcome.ok →
      o.connect = Outcome.ok →
      ∃ s1 os1, cf_socket_init_client s timeout os o = some (0, s1, os1)) ∧
    (∀ addr pre n ev t rest, s.addr = some addr → (pton4 addr).isSome = true →
      o.socket = Outcome.ok → o.connect = Outcome.fail EINPROGRESS →
      o.epoll_create = Outcome.ok → o.epoll_ctl_add = Outcome.ok →
      o.waits = pre ++ (WaitOutcome.events n (lowestFree os.open_nums) ev, t) :: rest →
      (∀ p ∈ pre, p.1.indecisive (lowestFree os.open_nums) = true ∧
        deadline_passed (o.start % 2 ^ 64) timeout (p.2 % 2 ^ 64) = false) →
      n ≠ 0 → ev &&& EPOLLOUT ≠ 0 →
      ∃ s1 os1, cf_socket_init_client s timeout os o = some (0, s1, os1)) ∧
    (∀ rc s1 os1, cf_socket_init_client s timeout os o = some (rc, s1, os1) →
      (rc = 0 →
        s1.sock = (lowestFree os.open_nums : Int) ∧
        (∃ addr mid arg, s.addr = some addr ∧
          os1.trace = os.trace ++
            client_calls_through_connect s addr (lowestFree os.open_nums) ++ mid ++
            [Call.setsockopt (lowestFree os.open_nums) SockOpt.TCP_NODELAY,
             Call.fcntl_getfl (lowestFree os.open_nums),
             Call.fcntl_setfl (lowestFree os.open_nums) arg] ∧
          (∀ c ∈ mid, c.is_finalization = false) ∧ arg &&& O_NONBLOCK = 0) ∧
        (∃ d ∈ os1.fds, (d.num : Int) = (lowestFree os.open_nums : Int) ∧
          (s.proto = SOCK_STREAM → d.nodelay = true) ∧ d.fl &&& O_NONBLOCK = 0)) ∧
      (rc ≠ 0 → ∃ calls, os1.trace = os.trace ++ calls ∧
        ∀ c ∈ calls, c.is_finalization = false)) := by
  refine ⟨?_, ?_, ?_⟩
  · intro addr haddr hwf hs hc
    obtain ⟨a, hp⟩ := Option.isSome_iff_exists.mp hwf
    rw [init_client_to_connect s timeout os o addr a haddr hp hs, hc]
    simp only [sys_call_ok_fst, lt_self_iff_false, if_false]
    exact ⟨_, _, rfl⟩
  · intro addr pre n ev t rest haddr hwf hs hc hcreate hadd hwaits hpre hn hout
    obtain ⟨a, hp⟩ := Option.isSome_iff_exists.mp hwf
    rw [init_client_to_connect s timeout os o addr a haddr hp hs, hc]
    simp only [sys_call_fail_fst, sys_call_fail_snd, Int.reduceNeg, Int.neg_neg_iff_pos,
      zero_lt_one, if_true]
    obtain ⟨os5, hrun⟩ := client_in_progress_writable
      (((((s.set_sock (lowestFree os.open_nums)).clear_saddr).set_family).set_inet_addr
        a).set_inet_port) timeout
      { ((sys_fcntl_setfl (sys_fcntl_setfd (sys_socket os s.proto Outcome.ok).2
          (lowestFree os.open_nums) FD_CLOEXEC) (lowestFree os.open_nums) O_NONBLOCK).log
          (Call.inet_pton addr)).log (Call.connect (lowestFree os.open_nums)) with
        errno := ((EINPROGRESS : Nat) : Int) }
      o pre n ev t rest hcreate hadd hwaits hpre hn hout
    rw [hrun]
    exact ⟨_, _, rfl⟩
  · intro rc s1 os1 hrun
    exact init_client_return_post s timeout os o rc s1 os1 hrun

theorem init_client_finalization_witness :
    ∃ s1 os1,
      cf_socket_init_client (example_cfg (some "10.0.0.1")) 1000 example_os example_connect_ok
        = some (0, s1, os1) ∧
      s1.sock = 3 ∧
      ∃ d ∈ os1.fds, (d.num : Int) = 3 ∧ d.nodelay = true ∧ d.fl &&& O_NONBLOCK = 0 := by
  obtain ⟨s1, os1, h⟩ := (init_client_finalization (example_cfg (some "10.0.0.1")) 1000
    example_os example_connect_ok).1 "10.0.0.1" rfl (by decide) rfl rfl
  have hfin := ((init_client_finalization (example_cfg (some "10.0.0.1")) 1000
    example_os example_connect_ok).2.2 0 s1 os1 h).1 rfl
  obtain ⟨d, hd, hnum, hnd, hfl⟩ := hfin.2.2
  exact ⟨s1, os1, h, hfin.1, d, hd, hnum, hnd rfl, hfl⟩

/-- C9 as stated fails for a datagram socket: with `proto = SOCK_DGRAM` and a
`connect` that succeeds at once, `cf_socket_init_client` returns 0 with the
handle 3 after the three finalization calls, yet setting `TCP_NODELAY` failed
(`errno` is `ENOPROTOOPT`, 92; the code discards the result of `setsockopt`) and
descriptor 3 is open, in blocking mode, without no-delay. -/
theorem init_client_datagram_returns_without_nodelay :
    (cf_socket_init_client (example_dgram_cfg (some "10.0.0.1")) 1000 example_os
        example_connect_ok).map
      (fun r => (r.1, r.2.1.sock, r.2.2.errno, r.2.2.trace))
      = some (0, 3, 92,
          [Call.socket SOCK_DGRAM, Call.fcntl_setfd 3 FD_CLOEXEC,
           Call.fcntl_setfl 3 O_NONBLOCK, Call.inet_pton "10.0.0.1", Call.connect 3,
           Call.setsockopt 3 SockOpt.TCP_NODELAY, Call.fcntl_getfl 3,
           Call.fcntl_setfl 3 0]) ∧
    (cf_socket_init_client (example_dgram_cfg (some "10.0.0.1")) 1000 example_os
        example_connect_ok).map
      (fun r => r.2.2.fds.map (fun d => (d.num, d.kind, d.nodelay, d.fl)))
      = some [(3, FdKind.sock SOCK_DGRAM, false, 0), (0, FdKind.file, false, 0),
          (1, FdKind.file, false, 0), (2, FdKind.file, false, 0)] := by
  decide

/-! ## Theorems: the client connector releases what it created when it fails -/

theorem client_fail_fds (s : cf_socket_cfg) (os : OS) (epfd : Int) :
    (client_fail s os epfd).2.2.fds =
      (if epfd > 0 then os.fds.filter (fun d => decide ((d.num : Int) ≠ epfd))
       else os.fds).filter (fun d => decide ((d.num : Int) ≠ s.sock)) := by
  by_cases hp : epfd > 0
  · simp [client_fail, hp, sys_close]
  · simp [client_fail, hp, sys_close]

theorem client_success_fst (s : cf_socket_cfg) (os : OS) : (client_success s os).1 = 0 := rfl

theorem client_wait_loop_fail_fds (s : cf_socket_cfg) (timeout : Int) (start : Nat)
    (epfd : Int) (del : Outcome) (hpos : epfd > 0) :
    ∀ (waits : List (WaitOutcome × Nat)) (os : OS) (r : Int × cf_socket_cfg × OS),
      0 < os.errno →
      client_wait_loop s timeout start epfd del os waits = some r → r.1 ≠ 0 →
      r.2.2.fds = (os.fds.filter (fun d => decide ((d.num : Int) ≠ epfd))).filter
        (fun d => decide ((d.num : Int) ≠ s.sock)) := by
  intro waits
  induction waits with
  | nil => intro os r _ h; simp [client_wait_loop] at h
  | cons p waits ih =>
    intro os r herr hrun hne
    obtain ⟨w, t⟩ := p
    rcases client_wait_body_cases s epfd del os w herr with
      ⟨os1, hb, he1, hf1, _⟩ | ⟨os1, hb, _, hf1, _⟩ | ⟨os1, hb, _, _⟩
    · simp only [client_wait_loop, hb, sys_cf_getms_fst, sys_cf_getms_snd] at hrun
      by_cases hd : deadline_passed start timeout (t % 2 ^ 64) = true
      · simp only [hd, if_true, Option.some.injEq] at hrun
        subst hrun
        rw [client_fail_fds, if_pos hpos]
        simp [hf1]
      · simp only [hd, if_false] at hrun
        have h := ih (os1.log Call.cf_getms) r (by simpa using he1) hrun hne
        simpa [hf1] using h
    · simp only [client_wait_loop, hb, Option.some.injEq] at hrun
      subst hrun
      rw [client_fail_fds, if_pos hpos, hf1]
    · simp only [client_wait_loop, hb, Option.some.injEq] at hrun
      subst hrun
      exact absurd (client_success_fst s os1) hne

theorem client_in_progress_fail_fds (s : cf_socket_cfg) (timeout : Int) (os : OS)
    (o : ClientScript) (r : Int × cf_socket_cfg × OS) (herr : 0 < os.errno)
    (hpos : 0 < lowestFree os.open_nums)
    (hrun : client_in_progress s timeout os o = some r) (hne : r.1 ≠ 0) :
    r.2.2.fds = os.fds.filter (fun d => decide ((d.num : Int) ≠ s.sock)) := by
  have hposi : ((lowestFree os.open_nums : Nat) : Int) > 0 := by omega
  have hdrop : (Fd.fresh (lowestFree os.open_nums) FdKind.epoll :: os.fds).filter
      (fun d => decide ((d.num : Int) ≠ ((lowestFree os.open_nums : Nat) : Int))) = os.fds := by
    rw [List.filter_cons]
    simp only [Fd.fresh, ne_eq, not_true_eq_false, decide_False, Bool.false_eq_true, if_false]
    exact filter_ne_of_fresh os.fds _ (lowestFree_not_mem os.open_nums)
  unfold client_in_progress at hrun
  cases hc : o.epoll_create with
  | fail e =>
    simp only [hc, sys_cf_getms_snd, sys_epoll_create_fail_fst, sys_epoll_create_fail_snd,
      gt_iff_lt, Int.reduceNeg, Int.neg_neg_iff_pos, zero_lt_one, if_true,
      Option.some.injEq] at hrun
    subst hrun
    rw [client_fail_fds]
    simp
  | ok =>
    cases ha : o.epoll_ctl_add with
    | fail e =>
      simp only [hc, ha, sys_cf_getms_snd, sys_epoll_create_ok_fst, OS.log_open_nums,
        natCast_not_neg, if_false, sys_call_fail_fst, sys_call_fail_snd, gt_iff_lt,
        Int.reduceNeg, Int.neg_neg_iff_pos, zero_lt_one, if_true, Option.some.injEq] at hrun
      subst hrun
      rw [client_fail_fds, if_pos hposi]
      simp only [OS.log_fds, sys_epoll_create_ok_fds, OS.log_open_nums]
      rw [hdrop]
    | ok =>
      simp only [hc, ha, sys_cf_getms_snd, sys_cf_getms_fst, sys_epoll_create_ok_fst,
        OS.log_open_nums, natCast_not_neg, if_false, sys_call_ok_fst, sys_call_ok_snd,
        gt_iff_lt, lt_self_iff_false] at hrun
      have h := client_wait_loop_fail_fds s timeout (o.start % 2 ^ 64)
        (lowestFree os.open_nums) o.epoll_ctl_del hposi o.waits
        (((sys_epoll_create (os.log Call.cf_getms) Outcome.ok).2).log
          (Call.epoll_ctl_add (lowestFree os.open_nums) s.sock)) r
        (by simpa using herr) hrun hne
      rw [h]
      simp only [OS.log_fds, sys_epoll_create_ok_fds, OS.log_open_nums]
      rw [hdrop]

/-- Whenever `cf_socket_init_client` returns a failure, the descriptor table is
what it was before the call: the socket and the event context that the call
created are closed again. -/
theorem init_client_failure_releases (s : cf_socket_cfg) (timeout : Int) (os : OS)
    (o : ClientScript) (rc : Int) (s1 : cf_socket_cfg) (os1 : OS)
    (hrun : cf_socket_init_client s timeout os o = some (rc, s1, os1)) (hrc : rc ≠ 0) :
    os1.fds = os.fds := by
  cases hs : o.socket with
  | fail e =>
    simp only [cf_socket_init_client, hs, sys_socket_fail_fst, sys_socket_fail_snd,
      cf_socket_cfg.sock_set_sock, gt_iff_lt, Int.reduceNeg, Int.neg_neg_iff_pos,
      zero_lt_one, if_true, Option.some.injEq, Prod.mk.injEq] at hrun
    obtain ⟨_, _, h3⟩ := hrun
    rw [← h3]
    rfl
  | ok =>
    cases haddr : s.addr with
    | none =>
      simp [cf_socket_init_client, hs, natCast_not_neg, haddr] at hrun
    | some addr =>
      obtain ⟨d, hdnum, hfds⟩ := init_client_fds_at_connect os s.proto addr o.connect
      have hdrop : (d :: os.fds).filter
          (fun x => decide ((x.num : Int) ≠ ((lowestFree os.open_nums : Nat) : Int)))
          = os.fds := by
        rw [List.filter_cons]
        simp only [hdnum, ne_eq, not_true_eq_false, decide_False, Bool.false_eq_true,
          if_false]
        exact filter_ne_of_fresh os.fds _ (lowestFree_not_mem os.open_nums)
      rw [sys_call_fds, OS.log_fds] at hfds
      cases hp : pton4 addr with
      | none =>
        simp only [cf_socket_init_client, hs, sys_socket_ok_fst, cf_socket_cfg.sock_set_sock,
          natCast_not_neg, if_false, cf_socket_cfg.addr_set_family,
          cf_socket_cfg.addr_clear_saddr, cf_socket_cfg.addr_set_sock, haddr,
          sys_inet_pton_none _ _ _ hp, lt_self_iff_false, if_true, Option.some.injEq,
          Prod.mk.injEq] at hrun
        obtain ⟨_, _, h3⟩ := hrun
        rw [← h3]
        simp only [sys_close, OS.log_fds, cf_socket_cfg.sock_set_inet_addr,
          cf_socket_cfg.sock_set_family, cf_socket_cfg.sock_clear_saddr,
          cf_socket_cfg.sock_set_sock, hfds]
        exact hdrop
      | some a =>
        rw [init_client_to_connect s timeout os o addr a haddr hp hs] at hrun
        cases hc : o.connect with
        | ok =>
          rw [hc] at hrun
          simp only [sys_call_ok_fst, lt_self_iff_false, if_false, Option.some.injEq]
            at hrun
          have h0 : rc = 0 := by
            have := congrArg (fun r => r.1) hrun
            simpa [client_success] using this.symm
          exact absurd h0 hrc
        | fail e =>
          rw [hc] at hrun
          simp only [sys_call_fail_fst, Int.reduceNeg, Int.neg_neg_iff_pos, zero_lt_one,
            if_true] at hrun
          by_cases hin : ((e : Nat) : Int) = ((EINPROGRESS : Nat) : Int)
          · simp only [sys_call_fail_snd, hin, if_true] at hrun
            have h := client_in_progress_fail_fds _ timeout _ o (rc, s1, os1)
              (by simp [pnat_errno_pos EINPROGRESS])
              (by
                show 0 < lowestFree (List.map Fd.num _)
                simp only [OS.log_fds, hfds, List.map_cons, hdnum]
                exact lowestFree_pos_after os.open_nums)
              hrun hrc
            simp only [OS.log_fds, hfds, cf_socket_cfg.sock_set_inet_port,
              cf_socket_cfg.sock_set_inet_addr, cf_socket_cfg.sock_set_family,
              cf_socket_cfg.sock_clear_saddr, cf_socket_cfg.sock_set_sock] at h
            rw [h]
            exact hdrop
          · simp only [sys_call_fail_snd, hin, if_false, Option.some.injEq] at hrun
            have h3 := congrArg (fun r => r.2.2.fds) hrun
            simp only [client_fail_fds, Int.reduceNeg, gt_iff_lt, Int.neg_pos, if_false,
              OS.log_fds, hfds, cf_socket_cfg.sock_set_inet_port,
              cf_socket_cfg.sock_set_inet_addr, cf_socket_cfg.sock_set_family,
              cf_socket_cfg.sock_clear_saddr, cf_socket_cfg.sock_set_sock] at h3
            rw [← h3]
            simp only [Int.reduceNeg, Int.reduceLT, if_false]
            exact hdrop

/-- An event for the target socket that lacks `EPOLLOUT` (so any event made of
`EPOLLERR` or `EPOLLHUP` alone) ends `cf_socket_init_client` as a failure: the
value returned is non-zero (the `EINPROGRESS` that `connect` left in `errno`),
the handle is -1 and the socket and the event context are closed. -/
theorem init_client_event_without_writable_fails (s : cf_socket_cfg) (timeout : Int)
    (os : OS) (o : ClientScript) (addr : String) (n ev t : Nat)
    (rest : List (WaitOutcome × Nat))
    (haddr : s.addr = some addr) (hwf : (pton4 addr).isSome = true)
    (hs : o.socket = Outcome.ok) (hc : o.connect = Outcome.fail EINPROGRESS)
    (hcreate : o.epoll_create = Outcome.ok) (hadd : o.epoll_ctl_add = Outcome.ok)
    (hwaits : o.waits = (WaitOutcome.events n (lowestFree os.open_nums) ev, t) :: rest)
    (hn : n ≠ 0) (hout : ev &&& EPOLLOUT = 0) :
    ∃ s1 os1, cf_socket_init_client s timeout os o
        = some (((EINPROGRESS : Nat) : Int), s1, os1) ∧
      s1.sock = -1 ∧ os1.fds = os.fds := by
  obtain ⟨a, hp⟩ := Option.isSome_iff_exists.mp hwf
  have hn1 : ¬ ((n : Int) = 0) := by omega
  have hout1 : ¬ (ev &&& EPOLLOUT ≠ 0) := by simp [hout]
  have hpos : ((lowestFree (lowestFree os.open_nums :: os.open_nums) : Nat) : Int) > 0 := by
    have := lowestFree_pos_after os.open_nums
    omega
  have hrun : ∃ osx, osx.errno = ((EINPROGRESS : Nat) : Int) ∧
      cf_socket_init_client s timeout os o = some (client_fail
        (((((s.set_sock (lowestFree os.open_nums)).clear_saddr).set_family).set_inet_addr
          a).set_inet_port) osx (lowestFree (lowestFree os.open_nums :: os.open_nums))) := by
    have hnums : ({ ((sys_fcntl_setfl (sys_fcntl_setfd (sys_socket os s.proto Outcome.ok).2
            (lowestFree os.open_nums) FD_CLOEXEC) (lowestFree os.open_nums) O_NONBLOCK).log
            (Call.inet_pton addr)).log (Call.connect (lowestFree os.open_nums)) with
          errno := ((EINPROGRESS : Nat) : Int) } : OS).open_nums
        = lowestFree os.open_nums :: os.open_nums := by
      show (sys_fcntl_setfl (sys_fcntl_setfd (sys_socket os s.proto Outcome.ok).2
            (lowestFree os.open_nums) FD_CLOEXEC) (lowestFree os.open_nums)
            O_NONBLOCK).open_nums = _
      simp
    refine ⟨(((sys_epoll_create
        ({ ((sys_fcntl_setfl (sys_fcntl_setfd (sys_socket os s.proto Outcome.ok).2
            (lowestFree os.open_nums) FD_CLOEXEC) (lowestFree os.open_nums) O_NONBLOCK).log
            (Call.inet_pton addr)).log (Call.connect (lowestFree os.open_nums)) with
          errno := ((EINPROGRESS : Nat) : Int) }.log Call.cf_getms) Outcome.ok).2).log
        (Call.epoll_ctl_add (lowestFree (lowestFree os.open_nums :: os.open_nums))
          (lowestFree os.open_nums))).log
        (Call.epoll_wait (lowestFree (lowestFree os.open_nums :: os.open_nums)) 1), ?_, ?_⟩
    · rfl
    rw [init_client_to_connect s timeout os o addr a haddr hp hs, hc]
    simp only [sys_call_fail_fst, sys_call_fail_snd, Int.reduceNeg, Int.neg_neg_iff_pos,
      zero_lt_one, if_true, client_in_progress, hcreate, hadd, hwaits, sys_cf_getms_fst,
      sys_cf_getms_snd, sys_epoll_create_ok_fst, OS.log_open_nums, natCast_not_neg, if_false,
      sys_call_ok_fst, sys_call_ok_snd, gt_iff_lt, lt_self_iff_false, client_wait_loop,
      client_wait_body, sys_epoll_wait, hn1, WaitOutcome.data_fd, WaitOutcome.flags,
      cf_socket_cfg.sock_set_inet_port, cf_socket_cfg.sock_set_inet_addr,
      cf_socket_cfg.sock_set_family, cf_socket_cfg.sock_clear_saddr,
      cf_socket_cfg.sock_set_sock, hnums]
    rw [if_neg hout1]
  obtain ⟨osx, herr, hrun⟩ := hrun
  have hval : client_fail
      (((((s.set_sock (lowestFree os.open_nums)).clear_saddr).set_family).set_inet_addr
        a).set_inet_port) osx (lowestFree (lowestFree os.open_nums :: os.open_nums))
      = (((EINPROGRESS : Nat) : Int),
         (((((s.set_sock (lowestFree os.open_nums)).clear_saddr).set_family).set_inet_addr
           a).set_inet_port).set_sock (-1),
         sys_close (sys_close osx (lowestFree (lowestFree os.open_nums :: os.open_nums)))
           (lowestFree os.open_nums)) := by
    simp [client_fail, hpos, herr]
  rw [hval] at hrun
  exact ⟨_, _, hrun, rfl,
    init_client_failure_releases s timeout os o _ _ _ hrun (by decide)⟩

/-! ## Theorems: interface enumeration -/

theorem ifaddrs.record_of_is_inet (ifa : ifaddrs) (h : ifa.is_inet = true) :
    ∃ a, ifa.ifa_addr = some a ∧ a.sa_family = AF_INET ∧
      ifa.record = some { flags := ifa.ifa_flags, family := a.sa_family, sa := a } := by
  unfold ifaddrs.is_inet at h
  cases ha : ifa.ifa_addr with
  | none => rw [ha] at h; cases h
  | some a =>
    rw [ha] at h
    have hf : a.sa_family = AF_INET := by simpa using h
    exact ⟨a, rfl, hf, by simp [ifaddrs.record, ha, hf]⟩

theorem ifaddrs.record_of_not_is_inet (ifa : ifaddrs) (h : ifa.is_inet = false) :
    ifa.record = none := by
  unfold ifaddrs.is_inet at h
  cases ha : ifa.ifa_addr with
  | none => simp [ifaddrs.record, ha]
  | some a =>
    rw [ha] at h
    have hf : ¬ a.sa_family = AF_INET := by simpa using h
    simp [ifaddrs.record, ha, hf]

theorem ifaddr_count_eq (l : List ifaddrs) :
    ∀ n : Int, ifaddr_count l n = n + ((inet_records l).length : Int) := by
  induction l with
  | nil => intro n; simp [ifaddr_count, inet_records]
  | cons ifa next ih =>
    intro n
    cases h : ifa.is_inet with
    | true =>
      obtain ⟨a, _, _, hrec⟩ := ifaddrs.record_of_is_inet ifa h
      simp only [ifaddr_count, h, if_true, ih, inet_records, List.filterMap_cons, hrec,
        List.length_cons]
      push_cast
      ring
    | false =>
      have hrec := ifaddrs.record_of_not_is_inet ifa h
      simp only [ifaddr_count, h, Bool.false_eq_true, if_false, ih, inet_records,
        List.filterMap_cons, hrec]

theorem ifaddr_fill_spec (l : List ifaddrs) :
    ∀ (i : Nat) (arr : Nat → cf_ifaddr),
      (∀ (k : Nat) (h : k < (inet_records l).length),
        ifaddr_fill l i arr (i + k) = (inet_records l).get ⟨k, h⟩) ∧
      (∀ j : Nat, (j < i ∨ i + (inet_records l).length ≤ j) → ifaddr_fill l i arr j = arr j) := by
  induction l with
  | nil =>
    intro i arr
    exact ⟨fun k h => absurd h (by simp [inet_records]), fun j _ => rfl⟩
  | cons ifa next ih =>
    intro i arr
    cases h : ifa.is_inet with
    | true =>
      obtain ⟨a, ha, _, hrec⟩ := ifaddrs.record_of_is_inet ifa h
      have hrecs : inet_records (ifa :: next) =
          { flags := ifa.ifa_flags, family := a.sa_family, sa := a } :: inet_records next := by
        simp [inet_records, List.filterMap_cons, hrec]
      have hstore : ∀ j, ifaddr_store arr i ifa j =
          if j = i then { flags := ifa.ifa_flags, family := a.sa_family, sa := a }
          else arr j := by
        intro j
        simp only [ifaddr_store, ha]
      obtain ⟨ih1, ih2⟩ := ih (i + 1) (ifaddr_store arr i ifa)
      simp only [ifaddr_fill, h, if_true]
      constructor
      · intro k hk
        cases k with
        | zero =>
          rw [ih2 (i + 0) (Or.inl (by omega)), hstore]
          simp [hrecs]
        | succ k =>
          have hk1 : k < (inet_records next).length := by
            rw [hrecs] at hk
            simpa using hk
          have := ih1 k hk1
          have heq : i + (k + 1) = i + 1 + k := by omega
          rw [heq, this]
          simp [hrecs]
      · intro j hj
        have hlen : (inet_records (ifa :: next)).length = (inet_records next).length + 1 := by
          rw [hrecs]; rfl
        rw [ih2 j (by omega), hstore]
        have hne : j ≠ i := by omega
        simp [hne]
    | false =>
      have hrec := ifaddrs.record_of_not_is_inet ifa h
      have hrecs : inet_records (ifa :: next) = inet_records next := by
        simp [inet_records, List.filterMap_cons, hrec]
      simp only [ifaddr_fill, h, Bool.false_eq_true, if_false]
      obtain ⟨ih1, ih2⟩ := ih i arr
      constructor
      · intro k hk
        have hk1 : k < (inet_records next).length := by rw [hrecs] at hk; exact hk
        rw [ih1 k hk1]
        simp [hrecs]
      · intro j hj
        rw [hrecs] at hj
        exact ih2 j hj

/-- C11: when the buffer is smaller than `n * sizeof(cf_ifaddr)`, `n` being the
number of IPv4-bearing entries of the list (so in particular for an empty
buffer and `n >= 1`), `cf_ifaddr_get` returns -2 and leaves the caller's memory
as it was: the buffer, `*ifaddr` and `*ifaddr_sz` are unchanged, and the list is
freed. A failed `getifaddrs` gives the other error value -1. -/
theorem ifaddr_get_buffer_too_small (sizeof_cf_ifaddr buf bufsz : Nat) (out : IfaddrOut)
    (os : OS) (l : List ifaddrs)
    (hfit : sizeof_cf_ifaddr * (inet_records l).length < 2 ^ 64)
    (hsmall : bufsz < sizeof_cf_ifaddr * (inet_records l).length) :
    cf_ifaddr_get sizeof_cf_ifaddr buf bufsz out os (GetifaddrsOutcome.ok l)
      = (-2, out, (os.log Call.getifaddrs).log Call.freeifaddrs) ∧
    (-2 : Int) ≠ -1 ∧
    ∀ e, (cf_ifaddr_get sizeof_cf_ifaddr buf bufsz out os (GetifaddrsOutcome.fail e)).1
      = -1 := by
  refine ⟨?_, by decide, ?_⟩
  · have hcount : ((ifaddr_count l 0 % 2 ^ 64).toNat : Nat) = (inet_records l).length := by
      rw [ifaddr_count_eq]
      have hlen : (inet_records l).length < 2 ^ 64 := by
        rcases Nat.eq_zero_or_pos sizeof_cf_ifaddr with h0 | hpos
        · rw [h0] at hsmall; omega
        · calc (inet_records l).length
              ≤ sizeof_cf_ifaddr * (inet_records l).length := Nat.le_mul_of_pos_left _ hpos
            _ < 2 ^ 64 := hfit
      omega
    simp only [cf_ifaddr_get, sys_getifaddrs, ne_eq, not_true_eq_false, if_false, hcount,
      Nat.mod_eq_of_lt hfit, hsmall, if_true]
  · intro e
    simp [cf_ifaddr_get, sys_getifaddrs]

theorem ifaddr_get_buffer_too_small_witness :
    (0 : Nat) < 24 * (inet_records example_ifaddrs).length ∧
    cf_ifaddr_get 24 4096 0 example_out example_os (GetifaddrsOutcome.ok example_ifaddrs)
      = (-2, example_out, (example_os.log Call.getifaddrs).log Call.freeifaddrs) :=
  ⟨by decide,
   (ifaddr_get_buffer_too_small 24 4096 0 example_out example_os example_ifaddrs
      (by decide) (by decide)).1⟩

/-- C12: when the buffer holds at least `n * sizeof(cf_ifaddr)` bytes, `n` being
the number of IPv4-bearing entries of the list, `cf_ifaddr_get` returns 0,
stores `n` in `*ifaddr_sz` and the buffer address in `*ifaddr`, and the `k`-th
record of the buffer holds flags, family and raw address of the `k`-th
IPv4-bearing entry in list order; every such record has family `AF_INET`,
entries without address or of another family leave no record, records from
index `n` on are untouched, and the list is freed. -/
theorem ifaddr_get_fills (sizeof_cf_ifaddr buf bufsz : Nat) (out : IfaddrOut) (os : OS)
    (l : List ifaddrs) (hb : bufsz < 2 ^ 64)
    (hsz : 0 < sizeof_cf_ifaddr)
    (hfit : sizeof_cf_ifaddr * (inet_records l).length ≤ bufsz) :
    (cf_ifaddr_get sizeof_cf_ifaddr buf bufsz out os (GetifaddrsOutcome.ok l)).1 = 0 ∧
    (cf_ifaddr_get sizeof_cf_ifaddr buf bufsz out os (GetifaddrsOutcome.ok l)).2.1.ifaddr_sz
      = ((inet_records l).length : Int) ∧
    (cf_ifaddr_get sizeof_cf_ifaddr buf bufsz out os (GetifaddrsOutcome.ok l)).2.1.ifaddr
      = buf ∧
    (∀ (k : Nat) (h : k < (inet_records l).length),
      (cf_ifaddr_get sizeof_cf_ifaddr buf bufsz out os (GetifaddrsOutcome.ok l)).2.1.arr k
        = (inet_records l).get ⟨k, h⟩) ∧
    (∀ k : Nat, (inet_records l).length ≤ k →
      (cf_ifaddr_get sizeof_cf_ifaddr buf bufsz out os (GetifaddrsOutcome.ok l)).2.1.arr k
        = out.arr k) ∧
    (∀ r ∈ inet_records l, r.family = AF_INET) ∧
    inet_records l = l.filterMap (fun ifa =>
      match ifa.ifa_addr with
      | some a =>
        if a.sa_family = AF_INET then
          some { flags := ifa.ifa_flags, family := a.sa_family, sa := a }
        else none
      | none => none) ∧
    (cf_ifaddr_get sizeof_cf_ifaddr buf bufsz out os (GetifaddrsOutcome.ok l)).2.2.trace
      = os.trace ++ [Call.getifaddrs, Call.freeifaddrs] := by
  have hint : (inet_records l).length < 2 ^ 64 :=
    calc (inet_records l).length
        ≤ sizeof_cf_ifaddr * (inet_records l).length := Nat.le_mul_of_pos_left _ hsz
      _ < 2 ^ 64 := by omega
  have hcount : ((ifaddr_count l 0 % 2 ^ 64).toNat : Nat) = (inet_records l).length := by
    rw [ifaddr_count_eq]
    omega
  have hnot : ¬ bufsz < (sizeof_cf_ifaddr * (ifaddr_count l 0 % 2 ^ 64).toNat) % 2 ^ 64 := by
    rw [hcount, Nat.mod_eq_of_lt (by omega)]
    omega
  have hrun : cf_ifaddr_get sizeof_cf_ifaddr buf bufsz out os (GetifaddrsOutcome.ok l) =
      (0, { ifaddr := buf, ifaddr_sz := ifaddr_count l 0, arr := ifaddr_fill l 0 out.arr },
        (os.log Call.getifaddrs).log Call.freeifaddrs) := by
    simp only [cf_ifaddr_get, sys_getifaddrs, ne_eq, not_true_eq_false, if_false, hnot]
  obtain ⟨hfill1, hfill2⟩ := ifaddr_fill_spec l 0 out.arr
  rw [hrun]
  refine ⟨rfl, ?_, rfl, ?_, ?_, ?_, rfl, ?_⟩
  · simp [ifaddr_count_eq]
  · intro k h
    have := hfill1 k h
    simpa using this
  · intro k hk
    exact hfill2 k (Or.inr (by omega))
  · intro r hr
    simp only [inet_records, List.mem_filterMap] at hr
    obtain ⟨ifa, _, hrec⟩ := hr
    unfold ifaddrs.record at hrec
    cases ha : ifa.ifa_addr with
    | none => rw [ha] at hrec; cases hrec
    | some a =>
      rw [ha] at hrec
      by_cases hf : a.sa_family = AF_INET
      · simp only [hf, if_true, Option.some.injEq] at hrec
        rw [← hrec]
      · simp [hf] at hrec
  · simp

theorem ifaddr_get_fills_witness :
    (24 : Nat) * (inet_records example_ifaddrs).length ≤ 48 ∧
    (cf_ifaddr_get 24 4096 48 example_out example_os
      (GetifaddrsOutcome.ok example_ifaddrs)).1 = 0 ∧
    (cf_ifaddr_get 24 4096 48 example_out example_os
      (GetifaddrsOutcome.ok example_ifaddrs)).2.1.ifaddr_sz = 2 ∧
    ((cf_ifaddr_get 24 4096 48 example_out example_os
      (GetifaddrsOutcome.ok example_ifaddrs)).2.1.arr 1).flags = 4163 ∧
    ((cf_ifaddr_get 24 4096 48 example_out example_os
      (GetifaddrsOutcome.ok example_ifaddrs)).2.1.arr 2).flags = 255 := by
  have h := ifaddr_get_fills 24 4096 48 example_out example_os example_ifaddrs
    (by decide) (by decide) (by decide)
  refine ⟨by decide, h.1, ?_, ?_, ?_⟩
  · rw [h.2.1]; decide
  · rw [h.2.2.2.1 1 (by decide)]; decide
  · rw [h.2.2.2.2.1 2 (by decide)]; rfl

/-! ## Theorems: the multicast socket initialiser -/

theorem mcast_bind_loop_retry (s : cf_socket_cfg) :
    ∀ (fails : List Outcome) (os : OS) (tail : List Outcome),
      (∀ r ∈ fails, r ≠ Outcome.ok) →
      ∃ os1, mcast_bind_loop s os (fails ++ Outcome.ok :: tail) = some os1 ∧
        os1.fds = os.fds ∧
        os1.trace = os.trace ++ List.replicate (fails.length + 1) (Call.bind s.sock) := by
  intro fails
  induction fails with
  | nil =>
    intro os tail _
    exact ⟨os.log (Call.bind s.sock), by simp [mcast_bind_loop], rfl, by simp⟩
  | cons r fails ih =>
    intro os tail h
    cases r with
    | ok => exact absurd rfl (h Outcome.ok (List.mem_cons_self _ _))
    | fail e =>
      obtain ⟨os1, hrun, hfds, htr⟩ :=
        ih (sys_call os (Call.bind s.sock) (Outcome.fail e)).2 tail
          (fun q hq => h q (List.mem_cons_of_mem _ hq))
      refine ⟨os1, ?_, ?_, ?_⟩
      · simp only [List.cons_append, mcast_bind_loop, sys_call_fail_fst, gt_iff_lt,
          Int.reduceNeg, Int.neg_neg_iff_pos, zero_lt_one, if_true]
        exact hrun
      · rw [hfds, sys_call_fds]
      · rw [htr, sys_call_trace]
        simp [List.replicate_succ, List.append_assoc]

theorem mcast_from_ttl_returns (ms : cf_mcastsocket_cfg) (s : cf_socket_cfg) (os : OS)
    (o : McastScript) (addr : String) (fails tail : List Outcome)
    (haddr : s.addr = some addr) (hb : o.binds = fails ++ Outcome.ok :: tail)
    (hf : ∀ r ∈ fails, r ≠ Outcome.ok) :
    ∃ ms1 os1, mcast_from_ttl ms s os o = some (0, ms1, os1) ∧ ms1.s = s ∧
      os1.trace = os.trace ++
        (if ms.mcast_ttl ≠ 0 then [Call.setsockopt_ip s.sock IpOpt.IP_MULTICAST_TTL] else []) ++
        List.replicate (fails.length + 1) (Call.bind s.sock) ++
        [Call.inet_pton addr] ++
        (match ms.tx_addr with
         | some tx => [Call.inet_addr tx]
         | none => []) ++
        [Call.setsockopt_ip s.sock IpOpt.IP_ADD_MEMBERSHIP] := by
  obtain ⟨os1, hrun, _, htr⟩ := mcast_bind_loop_retry s fails
    (if ms.mcast_ttl > 0 then
      (sys_call os (Call.setsockopt_ip s.sock IpOpt.IP_MULTICAST_TTL) o.multicast_ttl).2
     else os) tail hf
  have hq : ∃ q : Int × Mem 4 × OS,
      sys_inet_pton os1 addr ms.ireq.imr_multiaddr.s_addr = q ∧
      q.2.2 = os1.log (Call.inet_pton addr) := by
    refine ⟨_, rfl, ?_⟩
    unfold sys_inet_pton
    cases pton4 addr <;> rfl
  obtain ⟨q, hq1, hq2⟩ := hq
  have httl : (if ms.mcast_ttl > 0 then
      (sys_call os (Call.setsockopt_ip s.sock IpOpt.IP_MULTICAST_TTL) o.multicast_ttl).2
     else os).trace = os.trace ++
      (if ms.mcast_ttl ≠ 0 then [Call.setsockopt_ip s.sock IpOpt.IP_MULTICAST_TTL]
       else []) := by
    by_cases h0 : ms.mcast_ttl = 0
    · simp [h0]
    · have hpos : ms.mcast_ttl > 0 := Fin.pos_of_ne_zero h0
      simp [h0, hpos]
  simp only [mcast_from_ttl, hb, hrun, mcast_join, haddr, hq1]
  cases htx : ms.tx_addr with
  | none =>
    refine ⟨_, _, rfl, rfl, ?_⟩
    simp only [sys_call_trace, hq2, OS.log_trace, htr, httl]
    simp [List.append_assoc]
  | some tx =>
    refine ⟨_, _, rfl, rfl, ?_⟩
    simp only [sys_call_trace, hq2, OS.log_trace, htr, httl]

@[simp] theorem cf_socket_cfg.addr_set_inet_addr (s : cf_socket_cfg) (a : Mem 4) :
    (s.set_inet_addr a).addr = s.addr := rfl
@[simp] theorem cf_socket_cfg.addr_set_inet_port (s : cf_socket_cfg) :
    s.set_inet_port.addr = s.addr := rfl

/-- C13: in `cf_mcastsocket_init`, when an outbound-interface address is given
and setting the egress interface fails, the call returns that error code, the
failed `setsockopt` being its last call. When `socket`, the address-reuse
option, the egress-interface option (if an address is given) and, after any
number of failed attempts, `bind` succeed, the call returns 0 whatever the
results of the TTL option and of the group join are. On such a run the TTL
option is set exactly when the configured TTL is not zero. -/
theorem mcast_init_outcomes (ms : cf_mcastsocket_cfg) (os : OS) (o : McastScript) :
    (∀ tx e, ms.tx_addr = some tx → o.socket = Outcome.ok → o.reuse_addr = Outcome.ok →
      o.multicast_if = Outcome.fail e →
      ∃ ms1 os1, cf_mcastsocket_init ms os o = some (((e : Nat) : Int), ms1, os1) ∧
        os1.trace = os.trace ++
          [Call.socket SOCK_DGRAM,
           Call.setsockopt (lowestFree os.open_nums) SockOpt.SO_REUSEADDR,
           Call.fcntl_setfd (lowestFree os.open_nums) 1, Call.inet_addr tx,
           Call.setsockopt_ip (lowestFree os.open_nums) IpOpt.IP_MULTICAST_IF]) ∧
    (∀ addr fails tail, ms.s.addr = some addr → o.socket = Outcome.ok →
      o.reuse_addr = Outcome.ok → (ms.tx_addr = none ∨ o.multicast_if = Outcome.ok) →
      o.binds = fails ++ Outcome.ok :: tail → (∀ r ∈ fails, r ≠ Outcome.ok) →
      ∃ ms1 os1, cf_mcastsocket_init ms os o = some (0, ms1, os1) ∧
        ms1.s.sock = (lowestFree os.open_nums : Int) ∧
        os1.trace = os.trace ++ mcast_calls ms addr (lowestFree os.open_nums) fails.length) ∧
    (∀ addr k, Call.setsockopt_ip (lowestFree os.open_nums) IpOpt.IP_MULTICAST_TTL ∈
        mcast_calls ms addr (lowestFree os.open_nums) k ↔ ms.mcast_ttl ≠ 0) := by
  refine ⟨?_, ?_, ?_⟩
  · intro tx e htx hs hr hif
    simp only [cf_mcastsocket_init, hs, hr, htx, hif, sys_socket_ok_fst,
      cf_socket_cfg.sock_set_sock, natCast_not_neg, if_false, sys_setsockopt_checked,
      lt_self_iff_false, cf_socket_cfg.sock_set_inet_port, cf_socket_cfg.sock_set_inet_addr,
      cf_socket_cfg.sock_set_family, cf_socket_cfg.sock_clear_saddr, sys_call_fail_fst,
      if_true, sys_call_fail_snd]
    refine ⟨_, _, rfl, ?_⟩
    simp
  · intro addr fails tail haddr hs hr hif hb hf
    obtain ⟨ms1, os1, hrun, hms, htr⟩ := mcast_from_ttl_returns ms
      (((((ms.s.set_sock (lowestFree os.open_nums)).clear_saddr).set_family).set_inet_addr
        (fun _ => 0)).set_inet_port)
      (match ms.tx_addr with
       | some tx =>
         ((sys_fcntl_setfd (sys_setsockopt (sys_socket os SOCK_DGRAM Outcome.ok).2
            (lowestFree os.open_nums) SockOpt.SO_REUSEADDR) (lowestFree os.open_nums) 1).log
            (Call.inet_addr tx)).log
            (Call.setsockopt_ip (lowestFree os.open_nums) IpOpt.IP_MULTICAST_IF)
       | none =>
         sys_fcntl_setfd (sys_setsockopt (sys_socket os SOCK_DGRAM Outcome.ok).2
            (lowestFree os.open_nums) SockOpt.SO_REUSEADDR) (lowestFree os.open_nums) 1)
      o addr fails tail (by simpa using haddr) hb hf
    refine ⟨ms1, os1, ?_, ?_, ?_⟩
    · rw [← hrun]
      simp only [cf_mcastsocket_init, hs, hr, sys_socket_ok_fst,
        cf_socket_cfg.sock_set_sock, natCast_not_neg, if_false, sys_setsockopt_checked,
        lt_self_iff_false, cf_socket_cfg.sock_set_inet_port, cf_socket_cfg.sock_set_inet_addr,
        cf_socket_cfg.sock_set_family, cf_socket_cfg.sock_clear_saddr]
      cases htx : ms.tx_addr with
      | none => rfl
      | some tx =>
        have hok : o.multicast_if = Outcome.ok := by
          rcases hif with h | h
          · rw [htx] at h; cases h
          · exact h
        simp [hok]
    · rw [hms]; rfl
    · rw [htr]
      cases htx : ms.tx_addr with
      | none => simp [mcast_calls, htx, List.append_assoc]
      | some tx => simp [mcast_calls, htx, List.append_assoc]
  · intro addr k
    cases htx : ms.tx_addr with
    | none =>
      by_cases h0 : ms.mcast_ttl = 0 <;> simp [mcast_calls, htx, h0]
    | some tx =>
      by_cases h0 : ms.mcast_ttl = 0 <;> simp [mcast_calls, htx, h0]

theorem mcast_init_outcomes_witness :
    ∃ ms1 os1,
      cf_mcastsocket_init (example_mcast (some "10.0.0.5") 3) example_os example_mcast_script
        = some (0, ms1, os1) ∧
      ms1.s.sock = 3 ∧
      os1.trace =
        [Call.socket SOCK_DGRAM, Call.setsockopt 3 SockOpt.SO_REUSEADDR, Call.fcntl_setfd 3 1,
         Call.inet_addr "10.0.0.5", Call.setsockopt_ip 3 IpOpt.IP_MULTICAST_IF,
         Call.setsockopt_ip 3 IpOpt.IP_MULTICAST_TTL, Call.bind 3, Call.bind 3,
         Call.inet_pton "239.1.2.3", Call.inet_addr "10.0.0.5",
         Call.setsockopt_ip 3 IpOpt.IP_ADD_MEMBERSHIP] :=
  (mcast_init_outcomes (example_mcast (some "10.0.0.5") 3) example_os
    example_mcast_script).2.1 "239.1.2.3" [Outcome.fail 98] [] rfl rfl rfl (Or.inr rfl) rfl
    (by decide)

/-- When setting the egress interface fails with `EADDRNOTAVAIL` (99),
`cf_mcastsocket_init` returns 99 and the socket it created (descriptor 3) is
still open; no `close` is among the calls made. -/
theorem mcast_init_if_failure_leaves_socket_open :
    example_os.open_nums = [0, 1, 2] ∧
    (cf_mcastsocket_init (example_mcast (some "10.0.0.5") 3) example_os
        { socket := Outcome.ok, reuse_addr := Outcome.ok, inet_addr := fun _ => fun _ => 7,
          multicast_if := Outcome.fail 99, multicast_ttl := Outcome.ok,
          binds := [Outcome.ok], add_membership := Outcome.ok }).map
      (fun r => (r.1, r.2.2.open_nums, r.2.2.trace))
      = some (99, [3, 0, 1, 2],
          [Call.socket SOCK_DGRAM, Call.setsockopt 3 SockOpt.SO_REUSEADDR,
           Call.fcntl_setfd 3 1, Call.inet_addr "10.0.0.5",
           Call.setsockopt_ip 3 IpOpt.IP_MULTICAST_IF]) := by
  decide

end CfSocket
